import Mathlib

/-!
# Verification of the poembooth certificate provisioning core

Shallow embedding of `src/certificate-generator.ts` and
`src/device-registrar.ts`.

Modelling conventions:
* The filesystem is a map from normalized paths (segment lists) to file
  entries; an entry records its content and whether it is readable
  (permission failures on read are the only permission effect modelled).
* Node `path.join` normalizes `..` and `.` segments; `pathJoin` mirrors
  that by splitting its string argument on `/` and folding the segments
  onto the base path, popping on `..`.
* Randomness (`crypto.randomBytes`, `crypto.randomUUID`, RSA key
  generation inside openssl) is modelled by a draw counter threaded
  through the state; UUID strings come from an oracle stream
  `Oracle.uuid : Nat -> String`.
* File contents are symbolic terms (`Content`), so that distinct key
  material is distinguished by its draw index and certificate terms
  record exactly the inputs openssl derived them from.  SHA-256 is the
  idealized `Content.hash` constructor (collision-free, as the spec
  assumes).
* openssl subprocess invocations are modelled by their filesystem
  effects and failure conditions: reading a missing or unreadable file
  fails, signing with a wrong passphrase fails, signing with a CA key
  that does not match the CA certificate fails
  (`X509_check_private_key`), parsing a non-certificate fails.
* File writes (`fs.writeFile`, openssl `-out`) create-or-truncate and
  preserve an existing file's mode.
* The `/bin/sh` layer of `child_process.exec` is not modelled; since a
  tag holding whitespace or shell metacharacters makes the real command
  fail before openssl runs, theorems asserting successful completion are
  scoped to `safeAssetTag` tags, which the shell passes through
  verbatim.
-/

namespace PoemBooth

/-- Kind of a subject-alternative-name entry (the config uses URI.n / DNS.n). -/
inductive SanKind where
  | uri
  | dns
  deriving DecidableEq

/-- One SAN entry as parsed from an openssl config `[alt_names]` section. -/
structure SanEntry where
  kind : SanKind
  value : String
  deriving DecidableEq

/-- Symbolic file contents.  Key material and passphrases are identified by
the randomness-draw index that created them; certificates record the inputs
openssl built them from, plus their validity window in days. -/
inductive Content where
  /-- Plain text content (openssl config files, serial files). -/
  | text : String → Content
  /-- `crypto.randomBytes(32).toString('hex')` passphrase, by draw index. -/
  | pass : Nat → Content
  /-- `openssl genrsa 4096 -aes256`: CA key, by draw index, encrypted under
  the given passphrase content. -/
  | caKey : Nat → Content → Content
  /-- `openssl genrsa 2048` without passphrase: device key, by draw index. -/
  | devKey : Nat → Content
  /-- `openssl req -new -x509`: self-signed certificate from a key, a
  subject string, and a validity window (notBefore, notAfter in days). -/
  | selfCert : Content → String → Nat → Nat → Content
  /-- `openssl req -new`: certificate signing request from a key and a
  config file content. -/
  | csr : Content → Content → Content
  /-- `openssl x509 -req`: leaf certificate from a CSR, the CA certificate,
  the CA key, and a validity window. -/
  | leafCert : Content → Content → Content → Nat → Nat → Content
  /-- Idealized SHA-256 hex digest of a content. -/
  | hash : Content → Content
  deriving DecidableEq

/-- A filesystem entry: content plus a readability flag (mode bits are
modelled only as far as read permission). -/
structure Entry where
  content : Content
  readable : Bool
  deriving DecidableEq

/-- Errors surfaced by the modelled operations. -/
inductive Err where
  /-- `fs.access` / `fs.readFile` on a missing path (ENOENT). -/
  | fileNotFound : List String → Err
  /-- `fs.readFile` on an unreadable path (EACCES). -/
  | accessDenied : List String → Err
  /-- A failing openssl subprocess (bad passphrase, malformed input). -/
  | opensslFailed : Err
  deriving DecidableEq

/-- Program state: the filesystem and the randomness draw counter.  `now`
is the (constant) wall-clock day used for certificate validity windows. -/
structure State where
  fs : List String → Option Entry
  ctr : Nat
  now : Nat

/-- Randomness oracle: the stream of UUID strings returned by successive
`crypto.randomUUID()` calls (indexed by the draw counter). -/
structure Oracle where
  uuid : Nat → String

/-- Whether a read of path `p` would be permitted: an existing entry keeps
its mode, a fresh file is created readable.  Used to give overwrites their
real semantics: rewriting a file preserves its mode (verified for a
write-only 0200 file, which stays unreadable after being rewritten). -/
def entryReadable (s : State) (p : List String) : Bool :=
  match s.fs p with
  | some e => e.readable
  | none => true

/-- Write a file (Node `fs.writeFile` / openssl `-out`): creates or
truncates.  A fresh file is readable; overwriting an existing file
replaces the content but preserves the file's mode, so an unreadable file
stays unreadable.  (A file whose mode also forbids writing would make the
write itself fail; the model keeps all files writable, which matches the
write-only-mode case and is the only case any theorem relies on.) -/
def writeFile (p : List String) (c : Content) (s : State) : State :=
  { s with fs := fun q => if q = p then some ⟨c, entryReadable s p⟩ else s.fs q }

/-- Remove a file (`fs.unlink`); the `.catch(() => {})` in the source makes
removal of a missing file a no-op, which this is. -/
def removeFile (p : List String) (s : State) : State :=
  { s with fs := fun q => if q = p then none else s.fs q }

/-! ## Character-list splitting

Used both for path segmentation (separator `/`, Node `path.join`) and for
line structure of generated openssl config files (separator `\n`, as
openssl reads them). -/

/-- Split a character list at every occurrence of `sep`.  Always returns a
nonempty list of separator-free chunks. -/
def splitOnC (sep : Char) : List Char → List (List Char)
  | [] => [[]]
  | c :: cs =>
    if c = sep then [] :: splitOnC sep cs
    else
      match splitOnC sep cs with
      | [] => [[c]]
      | l :: ls => (c :: l) :: ls

/-- Join chunks with a separator; inverse of `splitOnC` on separator-free
chunks. -/
def joinCh (sep : Char) : List (List Char) → List Char
  | [] => []
  | [l] => l
  | l :: ls => l ++ sep :: joinCh sep ls

/-! ## Path model

Node `path.join(base, s)` concatenates and normalizes: `.` and empty
segments vanish, `..` pops the previous segment.  Paths are lists of
segments relative to the process working directory. -/

/-- Fold one segment onto a normalized path, the way Node path
normalization treats it. -/
def pushSeg (st : List String) (seg : String) : List String :=
  if seg = "" ∨ seg = "." then st
  else if seg = ".." then st.dropLast
  else st ++ [seg]

/-- Split a file-name string into path segments. -/
def segsOf (s : String) : List String :=
  (splitOnC '/' s.data).map String.mk

/-- Node `path.join`: append the segments of `s` to `base`, normalizing. -/
def pathJoin (base : List String) (s : String) : List String :=
  (segsOf s).foldl pushSeg base

/-! ## CertificateGenerator: directory layout (constructor, lines 24-30) -/

/-- `new CertificateGenerator(baseDir)`: the five derived locations.
`baseDir` is an already-normalized segment list (default `process.cwd()`,
modelled as the empty relative path). -/
structure CertificateGenerator where
  baseDir : List String

/-- `path.join(baseDir, 'ca')` -/
def caDir (g : CertificateGenerator) : List String := g.baseDir ++ ["ca"]

/-- `path.join(baseDir, 'device-certs')` -/
def certsDir (g : CertificateGenerator) : List String := g.baseDir ++ ["device-certs"]

/-- `path.join(caDir, 'ca-cert.pem')` -/
def caCertPath (g : CertificateGenerator) : List String := caDir g ++ ["ca-cert.pem"]

/-- `path.join(caDir, 'ca-key.pem')` -/
def caKeyPath (g : CertificateGenerator) : List String := caDir g ++ ["ca-key.pem"]

/-- `path.join(caDir, 'ca-password.txt')` -/
def caPasswordPath (g : CertificateGenerator) : List String := caDir g ++ ["ca-password.txt"]

/-- `openssl x509 -CAcreateserial` writes a serial file next to the `-CA`
certificate, with extension `.srl`. -/
def caSerialPath (g : CertificateGenerator) : List String := caDir g ++ ["ca-cert.srl"]

/-- `path.join(certsDir, assetTag + '-key.pem')` (line 81). -/
def devKeyPath (g : CertificateGenerator) (assetTag : String) : List String :=
  pathJoin (certsDir g) (assetTag ++ "-key.pem")

/-- `path.join(certsDir, assetTag + '-cert.pem')` (line 82). -/
def devCertPath (g : CertificateGenerator) (assetTag : String) : List String :=
  pathJoin (certsDir g) (assetTag ++ "-cert.pem")

/-- `path.join(certsDir, assetTag + '.csr')` (line 83). -/
def devCsrPath (g : CertificateGenerator) (assetTag : String) : List String :=
  pathJoin (certsDir g) (assetTag ++ ".csr")

/-- `path.join(certsDir, assetTag + '-openssl.cnf')` (line 84). -/
def devConfigPath (g : CertificateGenerator) (assetTag : String) : List String :=
  pathJoin (certsDir g) (assetTag ++ "-openssl.cnf")

/-! ## The generated openssl configuration (lines 87-111)

The template literal with its interpolations, after the `.trim()` applied
at line 113. -/

/-- The openssl request configuration written for a device, with the SAN
section.  Verbatim transcription of the trimmed template literal. -/
def opensslConfig (deviceId hubId assetTag : String) (equipmentId : Int) : String :=
  "[req]\ndistinguished_name = req_distinguished_name\nreq_extensions = v3_req\nprompt = no\n\n[req_distinguished_name]\nC = NL\nST = Noord-Holland\nL = Amsterdam\nO = Poem Booth\nCN = "
    ++ (deviceId ++
  ("\n\n[v3_req]\nbasicConstraints = CA:FALSE\nkeyUsage = digitalSignature, keyEncipherment\nextendedKeyUsage = clientAuth\nsubjectAltName = @alt_names\n\n[alt_names]\nURI.1 = urn:device:"
    ++ (deviceId ++
  ("\nURI.2 = urn:equipment:" ++ (toString equipmentId ++
  ("\nURI.3 = urn:hub:" ++ (hubId ++
  ("\nDNS.1 = " ++ (assetTag ++ ".booth.internal")))))))))

/-! ## openssl ini-file SAN parsing

Model of how openssl reads the `[alt_names]` section of the generated
config when building the certificate extension: the file is split into
lines; the lines between the `[alt_names]` header and the next section
header are `key = value` pairs; keys `URI.n` and `DNS.n` contribute SAN
entries in file order. -/

/-- A section header line starts with an opening square bracket. -/
def isHeaderLine (l : List Char) : Bool :=
  l.head? = some '['

/-- The lines of the `[alt_names]` section: everything after the first
`[alt_names]` header line, up to the next header line. -/
def altNamesSection : List (List Char) → List (List Char)
  | [] => []
  | l :: ls =>
    if l = "[alt_names]".data then ls.takeWhile (fun x => ¬ isHeaderLine x)
    else altNamesSection ls

/-- Split an ini line at the first " = " into key and value. -/
def splitKV : List Char → Option (List Char × List Char)
  | ' ' :: '=' :: ' ' :: rest => some ([], rest)
  | c :: cs => (splitKV cs).map (fun kv => (c :: kv.1, kv.2))
  | [] => none

/-- Parse one `[alt_names]` line into a SAN entry, if its key has a
recognized type prefix. -/
def parseSanLine (l : List Char) : Option SanEntry :=
  match splitKV l with
  | none => none
  | some (k, v) =>
    if "URI.".data.isPrefixOf k then some ⟨SanKind.uri, String.mk v⟩
    else if "DNS.".data.isPrefixOf k then some ⟨SanKind.dns, String.mk v⟩
    else none

/-- The SAN entries an openssl config file denotes. -/
def sanOfConfig (config : String) : List SanEntry :=
  (altNamesSection (splitOnC '\n' config.data)).filterMap parseSanLine

/-- The SAN extension of a certificate: a leaf certificate carries the
extension built from the `[alt_names]` of the config its CSR was created
with (`-extensions v3_req -extfile config`). -/
def certSAN : Content → Option (List SanEntry)
  | .leafCert (.csr _ (.text config)) _ _ _ _ => some (sanOfConfig config)
  | _ => none

/-! ## openssl behaviour on key material -/

/-- The fixed CA distinguished name (line 62). -/
def subjCA : String := "/C=NL/ST=Noord-Holland/L=Amsterdam/O=Poem Booth/CN=Poem Booth Root CA"

/-- `String.trim` on file content, as applied to the passphrase read back
from disk (`caPassword.trim()`, line 132).  Generated passphrases are hex
strings and contain no whitespace, so trimming them is the identity. -/
def trimC : Content → Content
  | .text s => .text s.trim
  | c => c

/-- Whether openssl accepts the `-passin` passphrase for a stored key: an
AES-encrypted CA key demands the exact passphrase it was encrypted under, an
unencrypted device key ignores the passphrase, and any non-key content makes
openssl fail. -/
def keyPassOk : Content → Content → Bool
  | .caKey _ p, q => p = q
  | .devKey _, _ => true
  | _, _ => false

/-- Whether content parses as an X.509 certificate. -/
def isCert : Content → Bool
  | .selfCert _ _ _ _ => true
  | .leafCert _ _ _ _ _ => true
  | _ => false

/-- `openssl x509 -req` verifies the `-CAkey` against the `-CA` certificate
(`X509_check_private_key`): signing fails with "CA certificate and CA
private key do not match" unless the supplied key is the one the
certificate embeds (verified against a real openssl run: substituting a
fresh key at the CA key path makes the signing step fail). -/
def keyMatchesCert : Content → Content → Bool
  | caK, .selfCert k _ _ _ => caK = k
  | caK, .leafCert (.csr k _) _ _ _ _ => caK = k
  | _, _ => false

/-- The notBefore/notAfter window openssl prints for a certificate
(`openssl x509 -noout -dates`). -/
def certValidity : Content → Option (Nat × Nat)
  | .selfCert _ _ nb na => some (nb, na)
  | .leafCert _ _ _ nb na => some (nb, na)
  | _ => none

/-! ## CertificateGenerator operations -/

/-- `validatePrerequisites` (lines 32-43): checks that openssl is on the
path (assumed available in the model) and creates the two directories;
directories are implicit in the file-map model, so this is effect-free. -/
def validatePrerequisites (s : State) : Except Err Unit × State :=
  (.ok (), s)

/-- `ensureCAExists` (lines 45-70).  The `try` block checks the CA
certificate with `fs.access` and reads it; any failure (absence or
unreadability) lands in the bare `catch`, which generates a passphrase, an
encrypted 4096-bit CA key, a self-signed certificate valid 3650 days, and
persists the passphrase, then re-reads the certificate.  The re-read hits
the file the generation just wrote; since writes preserve a pre-existing
file's mode, a CA certificate file that was unreadable before the call is
still unreadable afterwards, and the re-read raises EACCES. -/
def ensureCAExists (g : CertificateGenerator) (s : State) :
    Except Err (Content × Bool) × State :=
  match s.fs (caCertPath g) with
  | some ⟨c, true⟩ =>
    -- fs.access and fs.readFile both succeed (lines 47-49)
    (.ok (c, false), s)
  | _ =>
    -- catch branch (lines 50-68): generate a new CA
    let pw := s.ctr
    let kseed := s.ctr + 1
    let s1 : State := { s with ctr := s.ctr + 2 }
    -- openssl genrsa -out caKeyPath -aes256 -passout pass:<pw> 4096 (line 55)
    let s2 := writeFile (caKeyPath g) (.caKey kseed (.pass pw)) s1
    -- openssl req -new -x509 -days 3650 -key caKeyPath -out caCertPath (lines 58-62);
    -- reading back an unreadable key file makes the openssl subprocess fail
    match s2.fs (caKeyPath g) with
    | some ⟨kc, true⟩ =>
      if keyPassOk kc (.pass pw) then
        let s3 := writeFile (caCertPath g) (.selfCert kc subjCA s.now (s.now + 3650)) s2
        -- fs.writeFile(caPasswordPath, caPassword, mode 0o600) (line 65)
        let s4 := writeFile (caPasswordPath g) (.pass pw) s3
        -- readFile(caCertPath) (line 67)
        match s4.fs (caCertPath g) with
        | some ⟨cc, true⟩ => (.ok (cc, true), s4)
        | some ⟨_, false⟩ => (.error (.accessDenied (caCertPath g)), s4)
        | none => (.error (.fileNotFound (caCertPath g)), s4)
      else (.error .opensslFailed, s2)
    | _ => (.error .opensslFailed, s2)

/-- The result record of `generateDeviceCertificate` (interface
`CertificateInfo`, lines 9-15). -/
structure CertificateInfo where
  deviceId : String
  equipmentId : Int
  fingerprint : Content
  certificatePath : List String
  privateKeyPath : List String
  deriving DecidableEq

/-- The cleanup step of `generateDeviceCertificate` (lines 138-140):
unlink the CSR and the temporary openssl config. -/
def cleanupTemps (g : CertificateGenerator) (assetTag : String) (s : State) : State :=
  removeFile (devConfigPath g assetTag) (removeFile (devCsrPath g assetTag) s)

/-- `generateDeviceCertificate(assetTag, hubId, equipmentId)`
(lines 72-149), step by step:
fresh `deviceId` (line 78); derived file paths (lines 81-84); SAN config
written (line 113); unencrypted 2048-bit device key generated (line 116);
CSR built from key and config (line 119); CA passphrase read — the first
step that touches CA state, so the first that can fail when no CA exists
(line 122); leaf certificate signed with the CA key and certificate, with
`-CAcreateserial` writing the serial file (lines 123-132); fingerprint of
the certificate content (lines 135-136); temporary files removed
(lines 139-140).  Any error aborts at that point with no further cleanup
(each failing `await` propagates out of the function).

The signing step (`openssl x509 -req`) checks, besides the `-passin`
passphrase against the key, that the CA key matches the CA certificate
(`X509_check_private_key`); when they do not match the subprocess fails
and nothing more runs (in OpenSSL 3.x the failing signing step also
truncates its `-out` file to empty before failing; the model keeps the old
content there, and no theorem asserts anything about that file on this
failure path).

The model does not model `/bin/sh`: the openssl invocations go through
`child_process.exec`, which word-splits the interpolated asset tag, so a
real run with a tag containing whitespace or shell metacharacters fails
already at the `openssl genrsa` step (verified: a tag with an embedded
newline exits 127).  Theorems asserting successful completion are
therefore stated only for tags in the `safeAssetTag` domain, on which the
shell passes the openssl arguments through verbatim. -/
def generateDeviceCertificate (g : CertificateGenerator) (O : Oracle)
    (assetTag hubId : String) (equipmentId : Int) (s : State) :
    Except Err CertificateInfo × State :=
  let deviceId := O.uuid s.ctr
  let s0 : State := { s with ctr := s.ctr + 1 }
  let keyP := devKeyPath g assetTag
  let certP := devCertPath g assetTag
  let csrP := devCsrPath g assetTag
  let cfgP := devConfigPath g assetTag
  let s1 := writeFile cfgP (.text (opensslConfig deviceId hubId assetTag equipmentId)) s0
  let kseed := s1.ctr
  let s2 := writeFile keyP (.devKey kseed) { s1 with ctr := s1.ctr + 1 }
  -- openssl req -new -key keyP -out csrP -config cfgP reads the key and config
  match s2.fs keyP, s2.fs cfgP with
  | some ⟨kc, true⟩, some ⟨cc, true⟩ =>
    let s3 := writeFile csrP (.csr kc cc) s2
    match s3.fs (caPasswordPath g) with
    | none => (.error (.fileNotFound (caPasswordPath g)), s3)
    | some ⟨_, false⟩ => (.error (.accessDenied (caPasswordPath g)), s3)
    | some ⟨pwC, true⟩ =>
      -- openssl x509 -req reads the CSR, CA cert and CA key, checks the
      -- passphrase, writes the serial file and the leaf certificate
      match s3.fs csrP, s3.fs (caCertPath g), s3.fs (caKeyPath g) with
      | some ⟨csrC, true⟩, some ⟨caC, true⟩, some ⟨caK, true⟩ =>
        if isCert caC && keyPassOk caK (trimC pwC) && keyMatchesCert caK caC then
          let s4 := writeFile (caSerialPath g) (.text "serial") s3
          let s5 := writeFile certP (.leafCert csrC caC caK s.now (s.now + 3650)) s4
          match s5.fs certP with
          | some ⟨certC, true⟩ =>
            (.ok ⟨deviceId, equipmentId, .hash certC, certP, keyP⟩,
              cleanupTemps g assetTag s5)
          | some ⟨_, false⟩ => (.error (.accessDenied certP), s5)
          | none => (.error (.fileNotFound certP), s5)
        else (.error .opensslFailed, s3)
      | _, _, _ => (.error .opensslFailed, s3)
  | _, _ => (.error .opensslFailed, s2)

/-- `getCAInfo` (lines 151-165): reads the CA certificate (failing when it
is absent), hashes its bytes, and parses the validity window via
`openssl x509 -noout -dates`. -/
def getCAInfo (g : CertificateGenerator) (s : State) :
    Except Err (Content × Nat × Nat) × State :=
  match s.fs (caCertPath g) with
  | none => (.error (.fileNotFound (caCertPath g)), s)
  | some ⟨_, false⟩ => (.error (.accessDenied (caCertPath g)), s)
  | some ⟨c, true⟩ =>
    match certValidity c with
    | some (nb, na) => (.ok (.hash c, nb, na), s)
    | none => (.error .opensslFailed, s)

/-- `getCAPath` (lines 167-169). -/
def getCAPath (g : CertificateGenerator) : List String := caCertPath g

/-- `readCACertificate` (lines 171-173). -/
def readCACertificate (g : CertificateGenerator) (s : State) :
    Except Err Content × State :=
  match s.fs (caCertPath g) with
  | none => (.error (.fileNotFound (caCertPath g)), s)
  | some ⟨_, false⟩ => (.error (.accessDenied (caCertPath g)), s)
  | some ⟨c, true⟩ => (.ok c, s)

/-! ## DeviceRegistrar.uploadCAToDatabase (device-registrar.ts, lines 78-99)

The datastore is an external collaborator; the model takes the outcome the
Supabase insert reported (`None` for success, `Some e` for an error object
with its `code` and `message`). -/

/-- A Supabase/PostgREST error object as far as the source inspects it. -/
structure DbError where
  code : String
  message : String
  deriving DecidableEq

/-- `uploadCAToDatabase`: the insert error is ignored exactly when its code
is the Postgres duplicate-key code 23505; every other error is rethrown
with context. -/
def uploadCAToDatabase (insertResult : Option DbError) : Except String Unit :=
  match insertResult with
  | some e =>
    if e.code ≠ "23505" then .error ("Failed to upload CA: " ++ e.message)
    else .ok ()
  | none => .ok ()

/-- Decidable equality for `Except` results, so concrete runs of the model
can be checked by `decide`. -/
instance {e a : Type} [DecidableEq e] [DecidableEq a] : DecidableEq (Except e a) := fun x y =>
  match x, y with
  | .ok u, .ok v =>
    if h : u = v then isTrue (by rw [h]) else isFalse (fun hh => by cases hh; exact h rfl)
  | .error u, .error v =>
    if h : u = v then isTrue (by rw [h]) else isFalse (fun hh => by cases hh; exact h rfl)
  | .ok _, .error _ => isFalse (fun hh => by cases hh)
  | .error _, .ok _ => isFalse (fun hh => by cases hh)

/-! ## Success and failure shapes of the operations -/

/-- The content of the openssl config file written by a device issuance
call starting from state `s`. -/
def devCfgContent (O : Oracle) (tag hub : String) (eqId : Int) (s : State) : Content :=
  .text (opensslConfig (O.uuid s.ctr) hub tag eqId)

/-- The leaf certificate produced by a successful device issuance call from
state `s`. -/
def devLeafCert (g : CertificateGenerator) (O : Oracle) (tag hub : String)
    (eqId : Int) (caC caK : Content) (s : State) : Content :=
  .leafCert (.csr (.devKey (s.ctr + 1)) (devCfgContent O tag hub eqId s))
    caC caK s.now (s.now + 3650)

/-- The final state of a successful device issuance call from state `s`
(mirrors the write/remove chain of `generateDeviceCertificate`). -/
def devFinalState (g : CertificateGenerator) (O : Oracle) (tag hub : String)
    (eqId : Int) (caC caK : Content) (s : State) : State :=
  cleanupTemps g tag
    (writeFile (devCertPath g tag) (devLeafCert g O tag hub eqId caC caK s)
      (writeFile (caSerialPath g) (.text "serial")
        (writeFile (devCsrPath g tag)
          (.csr (.devKey (s.ctr + 1)) (devCfgContent O tag hub eqId s))
          (writeFile (devKeyPath g tag) (.devKey (s.ctr + 1))
            (writeFile (devConfigPath g tag) (devCfgContent O tag hub eqId s)
              { s with ctr := s.ctr + 2 })))))

/-- The CA certificate generated by a bootstrap starting from state `s`. -/
def caGenCert (s : State) : Content :=
  .selfCert (.caKey (s.ctr + 1) (.pass s.ctr)) subjCA s.now (s.now + 3650)

/-- The state produced by a CA bootstrap starting from state `s`. -/
def caGenState (g : CertificateGenerator) (s : State) : State :=
  writeFile (caPasswordPath g) (.pass s.ctr)
    (writeFile (caCertPath g) (caGenCert s)
      (writeFile (caKeyPath g) (.caKey (s.ctr + 1) (.pass s.ctr))
        { s with ctr := s.ctr + 2 }))

/-- The failure state of a device issuance call that aborts when reading
the CA passphrase: the config, device key and CSR files have already been
written and stay behind. -/
def devFailState (g : CertificateGenerator) (O : Oracle) (tag hub : String)
    (eqId : Int) (s : State) : State :=
  writeFile (devCsrPath g tag)
    (.csr (.devKey (s.ctr + 1)) (devCfgContent O tag hub eqId s))
    (writeFile (devKeyPath g tag) (.devKey (s.ctr + 1))
      (writeFile (devConfigPath g tag) (devCfgContent O tag hub eqId s)
        { s with ctr := s.ctr + 2 }))

/-! ## A usable CA state, and its preservation by issuance -/

/-- The CA material needed for a device issuance call to succeed: a
readable passphrase file, a readable parseable certificate, and a readable
key that accepts the trimmed passphrase and matches the certificate. -/
def CAok (g : CertificateGenerator) (pwC : Content) (s : State) : Prop :=
  s.fs (caPasswordPath g) = some ⟨pwC, true⟩ ∧
  ∃ caC caK,
    s.fs (caCertPath g) = some ⟨caC, true⟩ ∧ isCert caC = true ∧
    s.fs (caKeyPath g) = some ⟨caK, true⟩ ∧ keyPassOk caK (trimC pwC) = true ∧
    keyMatchesCert caK caC = true

/-- Asset tags made only of alphanumerics, `-`, `_` and `.`: no path
separator and no shell-significant character.  The openssl invocations
interpolate the tag into a `/bin/sh` command line, so a tag holding
whitespace or shell metacharacters derails the command itself before
openssl does anything (a tag with an embedded newline fails at
`openssl genrsa` with exit 127); a `/` changes the path layout.  Theorems
asserting successful completion are scoped to this domain, which covers
the real `PB-005`-style tags. -/
def safeAssetTag (tag : String) : Bool :=
  tag.data.all fun c => c.isAlphanum || c = '-' || c = '_' || c = '.'

/-- No pre-existing unreadable file sits at the four per-device scratch and
output paths for `tag`.  Since a write preserves an existing file's mode,
a leftover write-only file at one of these paths would make the
corresponding openssl read (or the final certificate read-back) of a real
run fail; success statements assume this sane mode state, which holds in
particular whenever the paths are fresh. -/
def scratchReadable (g : CertificateGenerator) (tag : String) (s : State) : Prop :=
  entryReadable s (devConfigPath g tag) = true ∧
  entryReadable s (devKeyPath g tag) = true ∧
  entryReadable s (devCsrPath g tag) = true ∧
  entryReadable s (devCertPath g tag) = true

instance (g : CertificateGenerator) (tag : String) (s : State) :
    Decidable (scratchReadable g tag s) :=
  inferInstanceAs (Decidable
    (entryReadable s (devConfigPath g tag) = true ∧
     entryReadable s (devKeyPath g tag) = true ∧
     entryReadable s (devCsrPath g tag) = true ∧
     entryReadable s (devCertPath g tag) = true))

/-! ## Concrete instances for witnesses and counterexamples -/

/-- A generator rooted at the working directory (the default
`new CertificateGenerator()`). -/
def G0 : CertificateGenerator := ⟨[]⟩

/-- A concrete injective UUID stream. -/
def O1 : Oracle := ⟨fun n => String.mk (List.replicate n 'u')⟩

/-- The empty starting state: nothing on disk. -/
def S0 : State := ⟨fun _ => none, 0, 100⟩

/-- The state right after a CA bootstrap from `S0`. -/
def SCA : State := caGenState G0 S0

/-- A state whose CA certificate file exists but is not readable. -/
def SUnread : State :=
  ⟨fun q => if q = caCertPath G0 then some ⟨.text "oldca", false⟩ else none, 0, 100⟩

theorem splitOnC_ne_nil (sep : Char) (cs : List Char) : splitOnC sep cs ≠ [] := by
  match cs with
  | [] => simp [splitOnC]
  | c :: cs =>
    simp only [splitOnC]
    split
    · simp
    · cases h : splitOnC sep cs <;> simp

theorem splitOnC_of_not_mem {sep : Char} {l : List Char} (h : sep ∉ l) :
    splitOnC sep l = [l] := by
  induction l with
  | nil => rfl
  | cons c cs ih =>
    simp only [List.mem_cons, not_or] at h
    simp only [splitOnC, if_neg (Ne.symm h.1), ih h.2]

theorem splitOnC_append_sep {sep : Char} {l : List Char} (r : List Char)
    (h : sep ∉ l) : splitOnC sep (l ++ sep :: r) = l :: splitOnC sep r := by
  induction l with
  | nil => simp [splitOnC]
  | cons c cs ih =>
    simp only [List.mem_cons, not_or] at h
    simp only [List.cons_append, splitOnC, if_neg (Ne.symm h.1), List.append_eq, ih h.2]

theorem splitOnC_append_left {sep : Char} {l r : List Char} {r0 : List Char}
    {rs : List (List Char)} (h : sep ∉ l) (hr : splitOnC sep r = r0 :: rs) :
    splitOnC sep (l ++ r) = (l ++ r0) :: rs := by
  induction l with
  | nil => simpa using hr
  | cons c cs ih =>
    simp only [List.mem_cons, not_or] at h
    simp only [List.cons_append, splitOnC, if_neg (Ne.symm h.1), List.append_eq, ih h.2]

/-- Splitting the join of separator-free chunks recovers the chunks. -/
theorem splitOnC_joinCh (sep : Char) (ls : List (List Char)) (hne : ls ≠ [])
    (h : ∀ l ∈ ls, sep ∉ l) : splitOnC sep (joinCh sep ls) = ls := by
  induction ls with
  | nil => exact absurd rfl hne
  | cons l ls ih =>
    match ls with
    | [] => exact splitOnC_of_not_mem (h l (List.mem_cons_self l []))
    | m :: ms =>
      have hl : sep ∉ l := h l (List.mem_cons_self _ _)
      have hrest : ∀ x ∈ m :: ms, sep ∉ x := fun x hx => h x (List.mem_cons_of_mem _ hx)
      have := ih (by simp) hrest
      simp only [joinCh, splitOnC_append_sep _ hl, this]

/-! ## Splitting lemmas for path reasoning -/

theorem string_data_inj {s t : String} (h : s.data = t.data) : s = t := by
  cases s
  cases t
  exact congrArg String.mk (by simpa using h)

/-- Appending a separator-free tail extends the last chunk of a split. -/
theorem splitOnC_append_of_split {sep : Char} {l r : List Char}
    {init : List (List Char)} {c : List Char}
    (hl : splitOnC sep l = init ++ [c]) (hr : sep ∉ r) :
    splitOnC sep (l ++ r) = init ++ [c ++ r] := by
  induction l generalizing init c with
  | nil =>
    cases init with
    | nil =>
      have hc : c = [] := by simpa [splitOnC] using hl
      subst hc
      simpa using splitOnC_of_not_mem hr
    | cons i0 irest =>
      exfalso
      have : ([[]] : List (List Char)) = i0 :: (irest ++ [c]) := hl
      have h2 : ([] : List (List Char)) = irest ++ [c] := by
        simpa using this
      simp at h2
  | cons a l ih =>
    by_cases ha : a = sep
    · subst ha
      have hl2 : ([] : List Char) :: splitOnC a l = init ++ [c] := by
        simpa [splitOnC] using hl
      cases init with
      | nil =>
        exfalso
        obtain ⟨-, h2⟩ : c = [] ∧ splitOnC a l = [] := by simpa using hl2
        exact splitOnC_ne_nil a l h2
      | cons i0 irest =>
        obtain ⟨h0, h1⟩ : i0 = [] ∧ splitOnC a l = irest ++ [c] := by
          have := hl2
          simp only [List.cons_append, List.cons.injEq] at this
          exact ⟨this.1.symm, this.2⟩
        subst h0
        simp only [List.cons_append, splitOnC, if_pos rfl, List.append_eq, ih h1]
        simp
    · obtain ⟨l0, ls, hsplit⟩ :
          ∃ l0 ls, splitOnC sep l = l0 :: ls := by
        cases h : splitOnC sep l with
        | nil => exact absurd h (splitOnC_ne_nil sep l)
        | cons x xs => exact ⟨x, xs, rfl⟩
      have hl2 : (a :: l0) :: ls = init ++ [c] := by
        simpa [splitOnC, if_neg ha, hsplit] using hl
      cases init with
      | nil =>
        obtain ⟨hc, hls⟩ : a :: l0 = c ∧ ls = [] := by
          simpa using hl2
        have hprev : splitOnC sep l = [] ++ [l0] := by simpa [hls] using hsplit
        have := ih hprev
        simp only [List.cons_append, splitOnC, if_neg ha, List.append_eq, this]
        simp [← hc]
      | cons i0 irest =>
        obtain ⟨h0, h1⟩ : a :: l0 = i0 ∧ ls = irest ++ [c] := by
          simpa using hl2
        have hprev : splitOnC sep l = (l0 :: irest) ++ [c] := by
          simp [hsplit, h1]
        have := ih hprev
        simp only [List.cons_append, splitOnC, if_neg ha, List.append_eq, this]
        simp [← h0]

/-- Every split has a last chunk. -/
theorem splitOnC_concat_shape (sep : Char) (l : List Char) :
    ∃ init c, splitOnC sep l = init ++ [c] := by
  rcases List.eq_nil_or_concat (splitOnC sep l) with h | ⟨init, c, h⟩
  · exact absurd h (splitOnC_ne_nil sep l)
  · exact ⟨init, c, by simpa [List.concat_eq_append] using h⟩

/-! ## Path shape lemmas -/

theorem pushSeg_of_long {seg : String} (st : List String)
    (h : 2 < seg.data.length) : pushSeg st seg = st ++ [seg] := by
  have h1 : seg ≠ "" := by
    intro e; subst e; simp at h
  have h2 : seg ≠ "." := by
    intro e; subst e; simp at h
  have h3 : seg ≠ ".." := by
    intro e; subst e; simp at h
  simp [pushSeg, h1, h2, h3]

/-- `pathJoin base (tag ++ x)` for a slash-free, nontrivially long file-name
suffix `x`: the result appends one segment, `lastChunk(tag) ++ x`, to a
directory determined by `base` and `tag` alone. -/
theorem pathJoin_concat_suffix (base : List String) (tag x : String)
    {init : List (List Char)} {c : List Char}
    (hsplit : splitOnC '/' tag.data = init ++ [c])
    (hx : '/' ∉ x.data) (hlen : 2 < x.data.length) :
    pathJoin base (tag ++ x) =
      (init.map String.mk).foldl pushSeg base ++ [String.mk (c ++ x.data)] := by
  have hdata : (tag ++ x).data = tag.data ++ x.data := String.data_append tag x
  have hsp : splitOnC '/' (tag.data ++ x.data) = init ++ [c ++ x.data] :=
    splitOnC_append_of_split hsplit hx
  have hlong : 2 < (String.mk (c ++ x.data)).data.length := by
    simp only [List.length_append]
    omega
  calc pathJoin base (tag ++ x)
      = ((init ++ [c ++ x.data]).map String.mk).foldl pushSeg base := by
        rw [pathJoin, segsOf, hdata, hsp]
    _ = (init.map String.mk).foldl pushSeg base ++ [String.mk (c ++ x.data)] := by
        rw [List.map_append, List.foldl_append]
        simp only [List.map_cons, List.map_nil, List.foldl_cons, List.foldl_nil]
        exact pushSeg_of_long _ hlong

theorem concat_inj {α : Type} {l1 l2 : List α} {a b : α}
    (h : l1 ++ [a] = l2 ++ [b]) : l1 = l2 ∧ a = b := by
  constructor
  · have := congrArg List.dropLast h
    simpa [List.dropLast_concat] using this
  · have := congrArg List.getLast? h
    simpa [List.getLast?_concat] using this

/-- Two device-file paths for the same tag but different file-name suffixes
differ. -/
theorem pathJoin_suffix_ne (base : List String) (tag x y : String)
    (hx : '/' ∉ x.data) (hlx : 2 < x.data.length)
    (hy : '/' ∉ y.data) (hly : 2 < y.data.length)
    (hne : x ≠ y) :
    pathJoin base (tag ++ x) ≠ pathJoin base (tag ++ y) := by
  obtain ⟨init, c, hsplit⟩ := splitOnC_concat_shape '/' tag.data
  rw [pathJoin_concat_suffix base tag x hsplit hx hlx,
    pathJoin_concat_suffix base tag y hsplit hy hly]
  intro h
  have h2 := (concat_inj h).2
  have h3 : c ++ x.data = c ++ y.data := by injection h2
  have h4 : x.data = y.data := List.append_cancel_left h3
  exact hne (string_data_inj h4)

/-- A device-file path cannot hit a CA-directory file whose name does not
end with the device file-name suffix, whatever the asset tag is. -/
theorem pathJoin_suffix_ne_fixed (base : List String) (tag x : String)
    (hx : '/' ∉ x.data) (hlx : 2 < x.data.length)
    (dir : List String) (b : String) (hb : ¬ (x.data <:+ b.data)) :
    pathJoin base (tag ++ x) ≠ dir ++ [b] := by
  obtain ⟨init, c, hsplit⟩ := splitOnC_concat_shape '/' tag.data
  rw [pathJoin_concat_suffix base tag x hsplit hx hlx]
  intro h
  have h2 := (concat_inj h).2
  have h3 : c ++ x.data = b.data := by
    have : (String.mk (c ++ x.data)).data = b.data := congrArg String.data h2
    simpa using this
  exact hb ⟨c, h3⟩

/-! ## Filesystem lookup lemmas -/

theorem writeFile_fs_same (p : List String) (c : Content) (s : State) :
    (writeFile p c s).fs p = some ⟨c, entryReadable s p⟩ := by
  simp [writeFile]

theorem writeFile_fs_ne {q p : List String} (c : Content) (s : State)
    (h : q ≠ p) : (writeFile p c s).fs q = s.fs q := by
  simp [writeFile, h]

theorem writeFile_ctr (p : List String) (c : Content) (s : State) :
    (writeFile p c s).ctr = s.ctr := rfl

theorem removeFile_fs_same (p : List String) (s : State) :
    (removeFile p s).fs p = none := by
  simp [removeFile]

theorem removeFile_fs_ne {q p : List String} (s : State)
    (h : q ≠ p) : (removeFile p s).fs q = s.fs q := by
  simp [removeFile, h]

theorem entryReadable_of_none {s : State} {p : List String}
    (h : s.fs p = none) : entryReadable s p = true := by
  simp [entryReadable, h]

theorem entryReadable_of_readable {s : State} {p : List String} {c : Content}
    (h : s.fs p = some ⟨c, true⟩) : entryReadable s p = true := by
  simp [entryReadable, h]

/-- A write never changes any path's readability: it preserves the mode of
the file it overwrites and creates fresh files readable. -/
theorem entryReadable_writeFile (p : List String) (c : Content) (s : State)
    (q : List String) :
    entryReadable (writeFile p c s) q = entryReadable s q := by
  by_cases h : q = p
  · subst h
    simp [entryReadable, writeFile]
  · simp [entryReadable, writeFile, h]

theorem entryReadable_removeFile (p : List String) (s : State) (q : List String) :
    entryReadable (removeFile p s) q = if q = p then true else entryReadable s q := by
  by_cases h : q = p
  · subst h
    simp [entryReadable, removeFile]
  · simp [entryReadable, removeFile, h]

theorem entryReadable_ctrSet (s : State) (n : Nat) (q : List String) :
    entryReadable { s with ctr := n } q = entryReadable s q := rfl

theorem safeAssetTag_no_slash {tag : String} (h : safeAssetTag tag = true) :
    '/' ∉ tag.data := by
  intro hm
  have h2 := List.all_eq_true.mp h _ hm
  exact absurd h2 (by decide)

theorem safeAssetTag_no_newline {tag : String} (h : safeAssetTag tag = true) :
    '\n' ∉ tag.data := by
  intro hm
  have h2 := List.all_eq_true.mp h _ hm
  exact absurd h2 (by decide)

theorem append_last_ne (dir : List String) {a b : String}
    (h : a ≠ b) : dir ++ [a] ≠ dir ++ [b] := by
  intro hh
  have h2 := List.append_cancel_left hh
  simp only [List.cons.injEq, and_true] at h2
  exact h h2

/-! ## Concrete path disequalities

The four per-device file names use the suffixes `-key.pem`, `-cert.pem`,
`.csr`, `-openssl.cnf`; the CA directory holds `ca-cert.pem`, `ca-key.pem`,
`ca-password.txt`, `ca-cert.srl`.  For arbitrary asset tags — including
ones with `/` or `..` — a device path can only collide with a CA file whose
name ends in the device suffix; only `ca-key.pem` / `-key.pem` and
`ca-cert.pem` / `-cert.pem` are compatible that way. -/

theorem devConfigPath_ne_devKeyPath (g : CertificateGenerator) (tag : String) :
    devConfigPath g tag ≠ devKeyPath g tag :=
  pathJoin_suffix_ne _ tag _ _ (by decide) (by decide) (by decide) (by decide) (by decide)

theorem devConfigPath_ne_devCsrPath (g : CertificateGenerator) (tag : String) :
    devConfigPath g tag ≠ devCsrPath g tag :=
  pathJoin_suffix_ne _ tag _ _ (by decide) (by decide) (by decide) (by decide) (by decide)

theorem devConfigPath_ne_devCertPath (g : CertificateGenerator) (tag : String) :
    devConfigPath g tag ≠ devCertPath g tag :=
  pathJoin_suffix_ne _ tag _ _ (by decide) (by decide) (by decide) (by decide) (by decide)

theorem devKeyPath_ne_devCsrPath (g : CertificateGenerator) (tag : String) :
    devKeyPath g tag ≠ devCsrPath g tag :=
  pathJoin_suffix_ne _ tag _ _ (by decide) (by decide) (by decide) (by decide) (by decide)

theorem devKeyPath_ne_devCertPath (g : CertificateGenerator) (tag : String) :
    devKeyPath g tag ≠ devCertPath g tag :=
  pathJoin_suffix_ne _ tag _ _ (by decide) (by decide) (by decide) (by decide) (by decide)

theorem devCsrPath_ne_devCertPath (g : CertificateGenerator) (tag : String) :
    devCsrPath g tag ≠ devCertPath g tag :=
  pathJoin_suffix_ne _ tag _ _ (by decide) (by decide) (by decide) (by decide) (by decide)

theorem devConfigPath_ne_caCertPath (g : CertificateGenerator) (tag : String) :
    devConfigPath g tag ≠ caCertPath g :=
  pathJoin_suffix_ne_fixed _ tag _ (by decide) (by decide) _ _ (by decide)

theorem devConfigPath_ne_caKeyPath (g : CertificateGenerator) (tag : String) :
    devConfigPath g tag ≠ caKeyPath g :=
  pathJoin_suffix_ne_fixed _ tag _ (by decide) (by decide) _ _ (by decide)

theorem devConfigPath_ne_caPasswordPath (g : CertificateGenerator) (tag : String) :
    devConfigPath g tag ≠ caPasswordPath g :=
  pathJoin_suffix_ne_fixed _ tag _ (by decide) (by decide) _ _ (by decide)

theorem devConfigPath_ne_caSerialPath (g : CertificateGenerator) (tag : String) :
    devConfigPath g tag ≠ caSerialPath g :=
  pathJoin_suffix_ne_fixed _ tag _ (by decide) (by decide) _ _ (by decide)

theorem devCsrPath_ne_caCertPath (g : CertificateGenerator) (tag : String) :
    devCsrPath g tag ≠ caCertPath g :=
  pathJoin_suffix_ne_fixed _ tag _ (by decide) (by decide) _ _ (by decide)

theorem devCsrPath_ne_caKeyPath (g : CertificateGenerator) (tag : String) :
    devCsrPath g tag ≠ caKeyPath g :=
  pathJoin_suffix_ne_fixed _ tag _ (by decide) (by decide) _ _ (by decide)

theorem devCsrPath_ne_caPasswordPath (g : CertificateGenerator) (tag : String) :
    devCsrPath g tag ≠ caPasswordPath g :=
  pathJoin_suffix_ne_fixed _ tag _ (by decide) (by decide) _ _ (by decide)

theorem devCsrPath_ne_caSerialPath (g : CertificateGenerator) (tag : String) :
    devCsrPath g tag ≠ caSerialPath g :=
  pathJoin_suffix_ne_fixed _ tag _ (by decide) (by decide) _ _ (by decide)

theorem devKeyPath_ne_caCertPath (g : CertificateGenerator) (tag : String) :
    devKeyPath g tag ≠ caCertPath g :=
  pathJoin_suffix_ne_fixed _ tag _ (by decide) (by decide) _ _ (by decide)

theorem devKeyPath_ne_caPasswordPath (g : CertificateGenerator) (tag : String) :
    devKeyPath g tag ≠ caPasswordPath g :=
  pathJoin_suffix_ne_fixed _ tag _ (by decide) (by decide) _ _ (by decide)

theorem devKeyPath_ne_caSerialPath (g : CertificateGenerator) (tag : String) :
    devKeyPath g tag ≠ caSerialPath g :=
  pathJoin_suffix_ne_fixed _ tag _ (by decide) (by decide) _ _ (by decide)

theorem devCertPath_ne_caKeyPath (g : CertificateGenerator) (tag : String) :
    devCertPath g tag ≠ caKeyPath g :=
  pathJoin_suffix_ne_fixed _ tag _ (by decide) (by decide) _ _ (by decide)

theorem devCertPath_ne_caPasswordPath (g : CertificateGenerator) (tag : String) :
    devCertPath g tag ≠ caPasswordPath g :=
  pathJoin_suffix_ne_fixed _ tag _ (by decide) (by decide) _ _ (by decide)

theorem devCertPath_ne_caSerialPath (g : CertificateGenerator) (tag : String) :
    devCertPath g tag ≠ caSerialPath g :=
  pathJoin_suffix_ne_fixed _ tag _ (by decide) (by decide) _ _ (by decide)

theorem caSerialPath_ne_caCertPath (g : CertificateGenerator) :
    caSerialPath g ≠ caCertPath g :=
  append_last_ne _ (by decide)

theorem caSerialPath_ne_caKeyPath (g : CertificateGenerator) :
    caSerialPath g ≠ caKeyPath g :=
  append_last_ne _ (by decide)

theorem caSerialPath_ne_caPasswordPath (g : CertificateGenerator) :
    caSerialPath g ≠ caPasswordPath g :=
  append_last_ne _ (by decide)

/-- The only way a device path can hit CA material: the key path collides
with the CA key exactly when the certificate path collides with the CA
certificate (both require the effective last segment to be `ca` + suffix
inside the `ca` directory). -/
theorem devKeyPath_caKeyPath_iff (g : CertificateGenerator) (tag : String) :
    devKeyPath g tag = caKeyPath g ↔ devCertPath g tag = caCertPath g := by
  obtain ⟨init, c, hsplit⟩ := splitOnC_concat_shape '/' tag.data
  rw [devKeyPath, devCertPath,
    pathJoin_concat_suffix _ tag _ hsplit (by decide) (by decide),
    pathJoin_concat_suffix _ tag _ hsplit (by decide) (by decide)]
  constructor
  · intro h
    obtain ⟨hd, hl⟩ := concat_inj h
    have hc : c ++ "-key.pem".data = "ca-key.pem".data := by
      have := congrArg String.data hl
      simpa using this
    have hca : c = "ca".data := by
      have h2 : c ++ "-key.pem".data = "ca".data ++ "-key.pem".data := by
        rw [hc]
        decide
      exact List.append_cancel_right h2
    rw [caCertPath, ← hd, hca]
    rfl
  · intro h
    obtain ⟨hd, hl⟩ := concat_inj h
    have hc : c ++ "-cert.pem".data = "ca-cert.pem".data := by
      have := congrArg String.data hl
      simpa using this
    have hca : c = "ca".data := by
      have h2 : c ++ "-cert.pem".data = "ca".data ++ "-cert.pem".data := by
        rw [hc]
        decide
      exact List.append_cancel_right h2
    rw [caKeyPath, ← hd, hca]
    rfl

/-- Success shape of `generateDeviceCertificate`: whenever the CA
passphrase file is present and readable, the CA certificate and key files
are present, readable and well-formed, the key accepts the trimmed
passphrase and matches the certificate, the device key path does not
collide with the CA key path, and no unreadable leftovers sit at the
per-device scratch paths, the call succeeds with an explicitly described
result and final state. -/
theorem generateDeviceCertificate_ok (g : CertificateGenerator) (O : Oracle)
    (tag hub : String) (eqId : Int) (s : State)
    (pwC caC caK : Content)
    (hpw : s.fs (caPasswordPath g) = some ⟨pwC, true⟩)
    (hcert : s.fs (caCertPath g) = some ⟨caC, true⟩)
    (hkey : s.fs (caKeyPath g) = some ⟨caK, true⟩)
    (hcertOk : isCert caC = true)
    (hpassOk : keyPassOk caK (trimC pwC) = true)
    (hmatch : keyMatchesCert caK caC = true)
    (hkk : devKeyPath g tag ≠ caKeyPath g)
    (hscratch : scratchReadable g tag s) :
    generateDeviceCertificate g O tag hub eqId s =
      (.ok ⟨O.uuid s.ctr, eqId,
          .hash (devLeafCert g O tag hub eqId caC caK s),
          devCertPath g tag, devKeyPath g tag⟩,
        devFinalState g O tag hub eqId caC caK s) := by
  obtain ⟨hr1, hr2, hr3, hr4⟩ := hscratch
  have hck := devConfigPath_ne_devKeyPath g tag
  have hpwcfg := devConfigPath_ne_caPasswordPath g tag
  have hpwkey := devKeyPath_ne_caPasswordPath g tag
  have hpwcsr := devCsrPath_ne_caPasswordPath g tag
  have hccfg := devConfigPath_ne_caCertPath g tag
  have hckey := devKeyPath_ne_caCertPath g tag
  have hccsr := devCsrPath_ne_caCertPath g tag
  have hkcfg := devConfigPath_ne_caKeyPath g tag
  have hkcsr := devCsrPath_ne_caKeyPath g tag
  have hkc := devKeyPath_ne_devCsrPath g tag
  have hcond : (isCert caC && keyPassOk caK (trimC pwC) && keyMatchesCert caK caC) = true := by
    rw [hcertOk, hpassOk, hmatch]
    rfl
  simp only [generateDeviceCertificate, devFinalState, devLeafCert, devCfgContent,
    cleanupTemps, writeFile_ctr,
    writeFile_fs_same,
    writeFile_fs_ne _ _ hck,
    writeFile_fs_ne _ _ (Ne.symm hpwcsr),
    writeFile_fs_ne _ _ (Ne.symm hpwkey),
    writeFile_fs_ne _ _ (Ne.symm hpwcfg),
    writeFile_fs_ne _ _ (Ne.symm hccsr),
    writeFile_fs_ne _ _ (Ne.symm hckey),
    writeFile_fs_ne _ _ (Ne.symm hccfg),
    writeFile_fs_ne _ _ (Ne.symm hkcsr),
    writeFile_fs_ne _ _ (Ne.symm hkk),
    writeFile_fs_ne _ _ (Ne.symm hkcfg),
    entryReadable_writeFile, entryReadable_ctrSet,
    hr1, hr2, hr3, hr4,
    hpw, hcert, hkey, hcond, if_true]
  rfl

/-- Reading an existing, readable CA certificate: `ensureCAExists` returns
its content, reports `isNew = false`, and leaves the state untouched. -/
theorem ensureCAExists_existing (g : CertificateGenerator) (s : State) (c : Content)
    (h : s.fs (caCertPath g) = some ⟨c, true⟩) :
    ensureCAExists g s = (.ok (c, false), s) := by
  simp only [ensureCAExists, h]

theorem caPasswordPath_ne_caCertPath (g : CertificateGenerator) :
    caPasswordPath g ≠ caCertPath g :=
  append_last_ne _ (by decide)

theorem caKeyPath_ne_caCertPath (g : CertificateGenerator) :
    caKeyPath g ≠ caCertPath g :=
  append_last_ne _ (by decide)

theorem caKeyPath_ne_caPasswordPath (g : CertificateGenerator) :
    caKeyPath g ≠ caPasswordPath g :=
  append_last_ne _ (by decide)

/-- The generation branch of `ensureCAExists`, entered when the CA
certificate is absent: fresh passphrase, encrypted key, self-signed
certificate and persisted passphrase, with `isNew = true` (assuming no
unreadable leftover file sits at the CA key path, which would make the
certificate-creating openssl call fail reading the key back). -/
theorem ensureCAExists_generate (g : CertificateGenerator) (s : State)
    (h : s.fs (caCertPath g) = none)
    (hk : entryReadable s (caKeyPath g) = true) :
    ensureCAExists g s = (.ok (caGenCert s, true), caGenState g s) := by
  have hcr : entryReadable s (caCertPath g) = true := entryReadable_of_none h
  simp only [ensureCAExists, h, caGenState, caGenCert, keyPassOk,
    writeFile_fs_same, writeFile_ctr, decide_eq_true_eq,
    entryReadable_writeFile, entryReadable_ctrSet, hk, hcr,
    writeFile_fs_ne _ _ (Ne.symm (caPasswordPath_ne_caCertPath g))]
  rfl

/-- The generation branch of `ensureCAExists` is also entered when the CA
certificate exists but cannot be read: passphrase, key and certificate are
regenerated at the same paths, but — since the write onto the existing
certificate file preserves its mode — the final certificate read-back then
fails with EACCES. -/
theorem ensureCAExists_generate_unreadable (g : CertificateGenerator) (s : State)
    (c : Content) (h : s.fs (caCertPath g) = some ⟨c, false⟩)
    (hk : entryReadable s (caKeyPath g) = true) :
    ensureCAExists g s = (.error (.accessDenied (caCertPath g)), caGenState g s) := by
  have hcr : entryReadable s (caCertPath g) = false := by
    simp [entryReadable, h]
  simp only [ensureCAExists, h, caGenState, caGenCert, keyPassOk,
    writeFile_fs_same, writeFile_ctr, decide_eq_true_eq,
    entryReadable_writeFile, entryReadable_ctrSet, hk, hcr,
    writeFile_fs_ne _ _ (Ne.symm (caPasswordPath_ne_caCertPath g))]
  rfl

/-- When the CA certificate is absent but an unreadable leftover sits at
the CA key path, the bootstrap fails at the certificate-creating openssl
call (which cannot read the key back), after the fresh key overwrote the
leftover. -/
theorem ensureCAExists_badKey (g : CertificateGenerator) (s : State)
    (h : s.fs (caCertPath g) = none)
    (hk : entryReadable s (caKeyPath g) = false) :
    ensureCAExists g s = (.error .opensslFailed,
      writeFile (caKeyPath g) (.caKey (s.ctr + 1) (.pass s.ctr))
        { s with ctr := s.ctr + 2 }) := by
  simp only [ensureCAExists, h, writeFile_fs_same, writeFile_ctr,
    entryReadable_writeFile, entryReadable_ctrSet, hk]

/-- The same failure with an unreadable certificate instead of an absent
one. -/
theorem ensureCAExists_badKey_unreadable (g : CertificateGenerator) (s : State)
    (c : Content) (h : s.fs (caCertPath g) = some ⟨c, false⟩)
    (hk : entryReadable s (caKeyPath g) = false) :
    ensureCAExists g s = (.error .opensslFailed,
      writeFile (caKeyPath g) (.caKey (s.ctr + 1) (.pass s.ctr))
        { s with ctr := s.ctr + 2 }) := by
  simp only [ensureCAExists, h, writeFile_fs_same, writeFile_ctr,
    entryReadable_writeFile, entryReadable_ctrSet, hk]

/-- Failure shape of `generateDeviceCertificate` when no CA passphrase
file exists (in particular, when no CA was ever bootstrapped): the call
fails at the passphrase read, after the device key, CSR and config files
have been written, and performs no cleanup. -/
theorem generateDeviceCertificate_noCA (g : CertificateGenerator) (O : Oracle)
    (tag hub : String) (eqId : Int) (s : State)
    (hpw : s.fs (caPasswordPath g) = none)
    (hcfg : entryReadable s (devConfigPath g tag) = true)
    (hkeyR : entryReadable s (devKeyPath g tag) = true) :
    generateDeviceCertificate g O tag hub eqId s =
      (.error (.fileNotFound (caPasswordPath g)), devFailState g O tag hub eqId s) := by
  have hck := devConfigPath_ne_devKeyPath g tag
  have hpwcfg := devConfigPath_ne_caPasswordPath g tag
  have hpwkey := devKeyPath_ne_caPasswordPath g tag
  have hpwcsr := devCsrPath_ne_caPasswordPath g tag
  simp only [generateDeviceCertificate, devFailState, devCfgContent,
    writeFile_ctr, writeFile_fs_same,
    writeFile_fs_ne _ _ hck,
    writeFile_fs_ne _ _ (Ne.symm hpwcsr),
    writeFile_fs_ne _ _ (Ne.symm hpwkey),
    writeFile_fs_ne _ _ (Ne.symm hpwcfg),
    entryReadable_writeFile, entryReadable_ctrSet, hcfg, hkeyR,
    hpw]
  rfl

/-- Whatever a device issuance call does, files other than the four
per-device files and the CA serial file are untouched. -/
theorem generateDeviceCertificate_frame (g : CertificateGenerator) (O : Oracle)
    (tag hub : String) (eqId : Int) (s : State) (q : List String)
    (h1 : q ≠ devConfigPath g tag) (h2 : q ≠ devKeyPath g tag)
    (h3 : q ≠ devCsrPath g tag) (h4 : q ≠ devCertPath g tag)
    (h5 : q ≠ caSerialPath g) :
    ((generateDeviceCertificate g O tag hub eqId s).2).fs q = s.fs q := by
  have hck := devConfigPath_ne_devKeyPath g tag
  simp only [generateDeviceCertificate]
  split
  all_goals try split
  all_goals try split
  all_goals try split
  all_goals try split
  all_goals simp only [cleanupTemps, removeFile_fs_ne _ h1, removeFile_fs_ne _ h3,
    writeFile_fs_ne _ _ h4, writeFile_fs_ne _ _ h5, writeFile_fs_ne _ _ h3,
    writeFile_fs_ne _ _ h2, writeFile_fs_ne _ _ h1]

/-! ## Lookups in the post-issuance state -/

theorem devFinalState_certFile (g : CertificateGenerator) (O : Oracle)
    (tag hub : String) (eqId : Int) (caC caK : Content) (s : State) :
    (devFinalState g O tag hub eqId caC caK s).fs (devCertPath g tag) =
      some ⟨devLeafCert g O tag hub eqId caC caK s,
        entryReadable s (devCertPath g tag)⟩ := by
  simp only [devFinalState, cleanupTemps,
    removeFile_fs_ne _ (Ne.symm (devConfigPath_ne_devCertPath g tag)),
    removeFile_fs_ne _ (Ne.symm (devCsrPath_ne_devCertPath g tag)),
    writeFile_fs_same, entryReadable_writeFile, entryReadable_ctrSet]

theorem devFinalState_keyFile (g : CertificateGenerator) (O : Oracle)
    (tag hub : String) (eqId : Int) (caC caK : Content) (s : State) :
    (devFinalState g O tag hub eqId caC caK s).fs (devKeyPath g tag) =
      some ⟨.devKey (s.ctr + 1), entryReadable s (devKeyPath g tag)⟩ := by
  simp only [devFinalState, cleanupTemps,
    removeFile_fs_ne _ (Ne.symm (devConfigPath_ne_devKeyPath g tag)),
    removeFile_fs_ne _ (Ne.symm (devKeyPath_ne_devCsrPath g tag)).symm,
    removeFile_fs_ne _ (devKeyPath_ne_devCsrPath g tag),
    writeFile_fs_ne _ _ (devKeyPath_ne_devCertPath g tag),
    writeFile_fs_ne _ _ (devKeyPath_ne_caSerialPath g tag),
    writeFile_fs_ne _ _ (devKeyPath_ne_devCsrPath g tag),
    writeFile_fs_same, entryReadable_writeFile, entryReadable_ctrSet]

theorem devFinalState_csrFile (g : CertificateGenerator) (O : Oracle)
    (tag hub : String) (eqId : Int) (caC caK : Content) (s : State) :
    (devFinalState g O tag hub eqId caC caK s).fs (devCsrPath g tag) = none := by
  simp only [devFinalState, cleanupTemps,
    removeFile_fs_ne _ (Ne.symm (devConfigPath_ne_devCsrPath g tag)),
    removeFile_fs_same]

theorem devFinalState_configFile (g : CertificateGenerator) (O : Oracle)
    (tag hub : String) (eqId : Int) (caC caK : Content) (s : State) :
    (devFinalState g O tag hub eqId caC caK s).fs (devConfigPath g tag) = none := by
  simp only [devFinalState, cleanupTemps, removeFile_fs_same]

theorem devFinalState_ctr (g : CertificateGenerator) (O : Oracle)
    (tag hub : String) (eqId : Int) (caC caK : Content) (s : State) :
    (devFinalState g O tag hub eqId caC caK s).ctr = s.ctr + 2 := rfl

theorem devFinalState_now (g : CertificateGenerator) (O : Oracle)
    (tag hub : String) (eqId : Int) (caC caK : Content) (s : State) :
    (devFinalState g O tag hub eqId caC caK s).now = s.now := rfl

/-- Files other than the four per-device files and the CA serial file are
untouched in the post-issuance state. -/
theorem devFinalState_frame (g : CertificateGenerator) (O : Oracle)
    (tag hub : String) (eqId : Int) (caC caK : Content) (s : State) (q : List String)
    (h1 : q ≠ devConfigPath g tag) (h2 : q ≠ devKeyPath g tag)
    (h3 : q ≠ devCsrPath g tag) (h4 : q ≠ devCertPath g tag)
    (h5 : q ≠ caSerialPath g) :
    (devFinalState g O tag hub eqId caC caK s).fs q = s.fs q := by
  simp only [devFinalState, cleanupTemps, removeFile_fs_ne _ h1, removeFile_fs_ne _ h3,
    writeFile_fs_ne _ _ h4, writeFile_fs_ne _ _ h5, writeFile_fs_ne _ _ h3,
    writeFile_fs_ne _ _ h2, writeFile_fs_ne _ _ h1]

/-! ## Slash-free asset tags stay inside the device directory -/

theorem pathJoin_slashFree (base : List String) (t x : String)
    (ht : '/' ∉ t.data) (hx : '/' ∉ x.data) (hlen : 2 < x.data.length) :
    pathJoin base (t ++ x) = base ++ [t ++ x] := by
  have hdata : (t ++ x).data = t.data ++ x.data := String.data_append t x
  have hnm : '/' ∉ (t ++ x).data := by
    rw [hdata]
    simp only [List.mem_append, not_or]
    exact ⟨ht, hx⟩
  have hlong : 2 < (t ++ x).data.length := by
    rw [hdata, List.length_append]
    omega
  have : segsOf (t ++ x) = [t ++ x] := by
    have hnm2 : '/' ∉ t.data ++ x.data := by
      simp only [List.mem_append, not_or]
      exact ⟨ht, hx⟩
    rw [segsOf, hdata, splitOnC_of_not_mem hnm2]
    rfl
  simp only [pathJoin, this, List.foldl_cons, List.foldl_nil]
  exact pushSeg_of_long _ hlong

theorem certsDirFile_ne_caDirFile (g : CertificateGenerator) (x y : String) :
    certsDir g ++ [x] ≠ caDir g ++ [y] := by
  intro h
  rw [certsDir, caDir, List.append_assoc, List.append_assoc] at h
  have h2 := List.append_cancel_left h
  simp only [List.cons_append, List.nil_append, List.cons.injEq] at h2
  exact absurd h2.1 (by decide)

theorem devKeyPath_ne_caKeyPath_of_slashFree (g : CertificateGenerator)
    (tag : String) (ht : '/' ∉ tag.data) : devKeyPath g tag ≠ caKeyPath g := by
  rw [devKeyPath, pathJoin_slashFree _ _ _ ht (by decide) (by decide)]
  exact certsDirFile_ne_caDirFile g _ _

theorem devCertPath_ne_caCertPath_of_slashFree (g : CertificateGenerator)
    (tag : String) (ht : '/' ∉ tag.data) : devCertPath g tag ≠ caCertPath g := by
  rw [devCertPath, pathJoin_slashFree _ _ _ ht (by decide) (by decide)]
  exact certsDirFile_ne_caDirFile g _ _

/-- The post-issuance state has no unreadable file at any path that was
readable (or absent) before: writes preserve readability and the cleanup
removals only delete files. -/
theorem entryReadable_devFinalState (g : CertificateGenerator) (O : Oracle)
    (tag hub : String) (eqId : Int) (caC caK : Content) (s : State)
    (q : List String) (h : entryReadable s q = true) :
    entryReadable (devFinalState g O tag hub eqId caC caK s) q = true := by
  simp only [devFinalState, cleanupTemps, entryReadable_removeFile,
    entryReadable_writeFile, entryReadable_ctrSet]
  split
  · rfl
  · split
    · rfl
    · exact h

/-- Scratch readability for any tag survives an issuance call for any
(other or same) tag. -/
theorem scratchReadable_devFinalState (g : CertificateGenerator) (O : Oracle)
    (tag1 hub : String) (eqId : Int) (caC caK : Content) (s : State)
    (tag2 : String) (h : scratchReadable g tag2 s) :
    scratchReadable g tag2 (devFinalState g O tag1 hub eqId caC caK s) := by
  obtain ⟨h1, h2, h3, h4⟩ := h
  exact ⟨entryReadable_devFinalState g O tag1 hub eqId caC caK s _ h1,
    entryReadable_devFinalState g O tag1 hub eqId caC caK s _ h2,
    entryReadable_devFinalState g O tag1 hub eqId caC caK s _ h3,
    entryReadable_devFinalState g O tag1 hub eqId caC caK s _ h4⟩

/-- From a usable CA state, issuance with a slash-free asset tag and clean
scratch paths succeeds, with the explicit result and final state, and the
final state is again a usable CA state. -/
theorem generateDeviceCertificate_CAok (g : CertificateGenerator) (O : Oracle)
    (tag hub : String) (eqId : Int) (s : State) (pwC : Content)
    (h : CAok g pwC s) (hslash : '/' ∉ tag.data)
    (hscratch : scratchReadable g tag s) :
    ∃ caC caK,
      s.fs (caCertPath g) = some ⟨caC, true⟩ ∧
      s.fs (caKeyPath g) = some ⟨caK, true⟩ ∧
      generateDeviceCertificate g O tag hub eqId s =
        (.ok ⟨O.uuid s.ctr, eqId,
            .hash (devLeafCert g O tag hub eqId caC caK s),
            devCertPath g tag, devKeyPath g tag⟩,
          devFinalState g O tag hub eqId caC caK s) ∧
      CAok g pwC (devFinalState g O tag hub eqId caC caK s) := by
  obtain ⟨hpw, caC, caK, hcert, hcOk, hkey, hkOk, hmOk⟩ := h
  have hkk := devKeyPath_ne_caKeyPath_of_slashFree g tag hslash
  have hcc := devCertPath_ne_caCertPath_of_slashFree g tag hslash
  refine ⟨caC, caK, hcert, hkey,
    generateDeviceCertificate_ok g O tag hub eqId s pwC caC caK hpw hcert hkey hcOk
      hkOk hmOk hkk hscratch, ?_, caC, caK, ?_, hcOk, ?_, hkOk, hmOk⟩
  · -- passphrase file untouched
    rw [devFinalState_frame g O tag hub eqId caC caK s _
      (Ne.symm (devConfigPath_ne_caPasswordPath g tag))
      (Ne.symm (devKeyPath_ne_caPasswordPath g tag))
      (Ne.symm (devCsrPath_ne_caPasswordPath g tag))
      (Ne.symm (devCertPath_ne_caPasswordPath g tag))
      (Ne.symm (caSerialPath_ne_caPasswordPath g))]
    exact hpw
  · -- certificate file untouched
    rw [devFinalState_frame g O tag hub eqId caC caK s _
      (Ne.symm (devConfigPath_ne_caCertPath g tag))
      (Ne.symm (devKeyPath_ne_caCertPath g tag))
      (Ne.symm (devCsrPath_ne_caCertPath g tag))
      (Ne.symm hcc)
      (Ne.symm (caSerialPath_ne_caCertPath g))]
    exact hcert
  · -- key file untouched
    rw [devFinalState_frame g O tag hub eqId caC caK s _
      (Ne.symm (devConfigPath_ne_caKeyPath g tag))
      (Ne.symm hkk)
      (Ne.symm (devCsrPath_ne_caKeyPath g tag))
      (Ne.symm (devCertPath_ne_caKeyPath g tag))
      (Ne.symm (caSerialPath_ne_caKeyPath g))]
    exact hkey

/-! ## Line structure of the generated openssl config -/

set_option maxHeartbeats 2000000 in
set_option maxRecDepth 4000 in
/-- The generated config, split into lines, when none of the interpolated
values contains a newline. -/
theorem opensslConfig_lines (d h t : String) (e : Int)
    (hd : '\n' ∉ d.data) (hh : '\n' ∉ h.data) (ht : '\n' ∉ t.data)
    (he : '\n' ∉ (toString e).data) :
    splitOnC '\n' (opensslConfig d h t e).data =
      ["[req]".data,
       "distinguished_name = req_distinguished_name".data,
       "req_extensions = v3_req".data,
       "prompt = no".data,
       [],
       "[req_distinguished_name]".data,
       "C = NL".data,
       "ST = Noord-Holland".data,
       "L = Amsterdam".data,
       "O = Poem Booth".data,
       "CN = ".data ++ d.data,
       [],
       "[v3_req]".data,
       "basicConstraints = CA:FALSE".data,
       "keyUsage = digitalSignature, keyEncipherment".data,
       "extendedKeyUsage = clientAuth".data,
       "subjectAltName = @alt_names".data,
       [],
       "[alt_names]".data,
       "URI.1 = urn:device:".data ++ d.data,
       "URI.2 = urn:equipment:".data ++ (toString e).data,
       "URI.3 = urn:hub:".data ++ h.data,
       "DNS.1 = ".data ++ t.data ++ ".booth.internal".data] := by
  have hjoin : (opensslConfig d h t e).data =
      joinCh '\n'
        ["[req]".data,
         "distinguished_name = req_distinguished_name".data,
         "req_extensions = v3_req".data,
         "prompt = no".data,
         [],
         "[req_distinguished_name]".data,
         "C = NL".data,
         "ST = Noord-Holland".data,
         "L = Amsterdam".data,
         "O = Poem Booth".data,
         "CN = ".data ++ d.data,
         [],
         "[v3_req]".data,
         "basicConstraints = CA:FALSE".data,
         "keyUsage = digitalSignature, keyEncipherment".data,
         "extendedKeyUsage = clientAuth".data,
         "subjectAltName = @alt_names".data,
         [],
         "[alt_names]".data,
         "URI.1 = urn:device:".data ++ d.data,
         "URI.2 = urn:equipment:".data ++ (toString e).data,
         "URI.3 = urn:hub:".data ++ h.data,
         "DNS.1 = ".data ++ t.data ++ ".booth.internal".data] := rfl
  rw [hjoin]
  apply splitOnC_joinCh
  · simp
  · intro l hl
    fin_cases hl <;>
      first
        | decide
        | (simp only [List.mem_append, not_or]
           first
             | exact ⟨by decide, hd⟩
             | exact ⟨by decide, he⟩
             | exact ⟨by decide, hh⟩
             | exact ⟨⟨by decide, ht⟩, by decide⟩)

/-- The SAN entries denoted by the generated config: exactly the four
claims, in order, when no interpolated value contains a newline. -/
theorem sanOfConfig_opensslConfig (d h t : String) (e : Int)
    (hd : '\n' ∉ d.data) (hh : '\n' ∉ h.data) (ht : '\n' ∉ t.data)
    (he : '\n' ∉ (toString e).data) :
    sanOfConfig (opensslConfig d h t e) =
      [⟨.uri, "urn:device:" ++ d⟩,
       ⟨.uri, "urn:equipment:" ++ toString e⟩,
       ⟨.uri, "urn:hub:" ++ h⟩,
       ⟨.dns, t ++ ".booth.internal"⟩] := by
  rw [sanOfConfig, opensslConfig_lines d h t e hd hh ht he]
  rfl

/-! ## Lookups in the post-bootstrap state -/

theorem caGenState_certFile (g : CertificateGenerator) (s : State) :
    (caGenState g s).fs (caCertPath g) =
      some ⟨caGenCert s, entryReadable s (caCertPath g)⟩ := by
  simp only [caGenState,
    writeFile_fs_ne _ _ (Ne.symm (caPasswordPath_ne_caCertPath g)),
    writeFile_fs_same, entryReadable_writeFile, entryReadable_ctrSet]

theorem caGenState_keyFile (g : CertificateGenerator) (s : State) :
    (caGenState g s).fs (caKeyPath g) =
      some ⟨.caKey (s.ctr + 1) (.pass s.ctr), entryReadable s (caKeyPath g)⟩ := by
  simp only [caGenState,
    writeFile_fs_ne _ _ (caKeyPath_ne_caPasswordPath g),
    writeFile_fs_ne _ _ (caKeyPath_ne_caCertPath g),
    writeFile_fs_same, entryReadable_writeFile, entryReadable_ctrSet]

theorem caGenState_passFile (g : CertificateGenerator) (s : State) :
    (caGenState g s).fs (caPasswordPath g) =
      some ⟨.pass s.ctr, entryReadable s (caPasswordPath g)⟩ := by
  simp only [caGenState, writeFile_fs_same, entryReadable_writeFile,
    entryReadable_ctrSet]

/-- A freshly bootstrapped CA state is usable for issuance, provided no
pre-existing unreadable file sat at the three CA paths. -/
theorem caGenState_CAok (g : CertificateGenerator) (s : State)
    (hc : entryReadable s (caCertPath g) = true)
    (hk : entryReadable s (caKeyPath g) = true)
    (hp : entryReadable s (caPasswordPath g) = true) :
    CAok g (.pass s.ctr) (caGenState g s) :=
  ⟨by rw [caGenState_passFile g s, hp],
   caGenCert s, .caKey (s.ctr + 1) (.pass s.ctr),
   by rw [caGenState_certFile g s, hc], rfl,
   by rw [caGenState_keyFile g s, hk],
   by simp [trimC, keyPassOk],
   by simp [keyMatchesCert, caGenCert]⟩

theorem O1_injective : Function.Injective O1.uuid := by
  intro a b hab
  have h2 := congrArg List.length (congrArg String.data hab)
  simpa [O1] using h2

theorem SCA_CAok : CAok G0 (.pass 0) SCA :=
  caGenState_CAok G0 S0 (by decide) (by decide) (by decide)

/-! ## Claim theorems -/

/-- C1: after any successful `ensureCAExists` call, every further call is
side-effect-free — it returns the state completely unchanged, so in
particular it writes nothing to the CA key, certificate or passphrase
paths — and returns certificate content identical to the first call, with
`isNew = false`. -/
theorem C1_ensureCAExists_idempotent (g : CertificateGenerator) (s s2 : State)
    (c : Content) (b : Bool)
    (h : ensureCAExists g s = (.ok (c, b), s2)) :
    ensureCAExists g s2 = (.ok (c, false), s2) := by
  rcases hc : s.fs (caCertPath g) with _ | ⟨cc, rb⟩
  · rcases hk : entryReadable s (caKeyPath g) with _ | _
    · rw [ensureCAExists_badKey g s hc hk] at h
      simp at h
    · rw [ensureCAExists_generate g s hc hk] at h
      simp only [Prod.mk.injEq, Except.ok.injEq] at h
      obtain ⟨⟨h1, -⟩, h3⟩ := h
      rw [← h3, ← h1]
      refine ensureCAExists_existing g _ _ ?_
      rw [caGenState_certFile g s, entryReadable_of_none hc]
  · cases rb with
    | true =>
      rw [ensureCAExists_existing g s cc hc] at h
      simp only [Prod.mk.injEq, Except.ok.injEq] at h
      obtain ⟨⟨h1, -⟩, h3⟩ := h
      rw [← h3, ← h1]
      exact ensureCAExists_existing g s cc hc
    | false =>
      rcases hk : entryReadable s (caKeyPath g) with _ | _
      · rw [ensureCAExists_badKey_unreadable g s cc hc hk] at h
        simp at h
      · rw [ensureCAExists_generate_unreadable g s cc hc hk] at h
        simp at h

/-- Witness for C1 at a concrete input: bootstrap from the empty state,
then call again. -/
theorem C1_witness :
    ensureCAExists G0 (caGenState G0 S0) = (.ok (caGenCert S0, false), caGenState G0 S0) :=
  C1_ensureCAExists_idempotent G0 S0 (caGenState G0 S0) (caGenCert S0) true
    (ensureCAExists_generate G0 S0 rfl (by decide))

/-- C6: `uploadCAToDatabase` treats exactly the duplicate-key condition
(Postgres error code 23505) as success; it succeeds on a clean insert, and
every error with any other code is raised with context. -/
theorem C6_uploadCA_duplicate_tolerant :
    uploadCAToDatabase none = .ok () ∧
    (∀ e : DbError, e.code = "23505" → uploadCAToDatabase (some e) = .ok ()) ∧
    (∀ e : DbError, e.code ≠ "23505" →
      uploadCAToDatabase (some e) = .error ("Failed to upload CA: " ++ e.message)) := by
  refine ⟨rfl, fun e he => ?_, fun e he => ?_⟩
  · simp [uploadCAToDatabase, he]
  · simp [uploadCAToDatabase, he]

/-- Witness for C6 at concrete error objects. -/
theorem C6_witness :
    uploadCAToDatabase (some ⟨"23505", "dup"⟩) = .ok () ∧
    uploadCAToDatabase (some ⟨"42501", "boom"⟩) = .error ("Failed to upload CA: " ++ "boom") :=
  ⟨C6_uploadCA_duplicate_tolerant.2.1 ⟨"23505", "dup"⟩ rfl,
   C6_uploadCA_duplicate_tolerant.2.2 ⟨"42501", "boom"⟩ (by decide)⟩

/-- C7: `getCAInfo` fails whenever no CA certificate exists at the
authority storage path, and on a stored certificate returns the idealized
SHA-256 fingerprint of the stored bytes together with the notBefore and
notAfter timestamps parsed from that same certificate. -/
theorem C7_getCAInfo (g : CertificateGenerator) (s : State) :
    (s.fs (caCertPath g) = none →
      getCAInfo g s = (.error (.fileNotFound (caCertPath g)), s)) ∧
    (∀ c nb na, s.fs (caCertPath g) = some ⟨c, true⟩ →
      certValidity c = some (nb, na) →
      getCAInfo g s = (.ok (.hash c, nb, na), s)) := by
  constructor
  · intro h
    simp only [getCAInfo, h]
  · intro c nb na h hv
    simp only [getCAInfo, h, hv]

/-- Witness for C7: absent on the empty state, present after bootstrap. -/
theorem C7_witness :
    getCAInfo G0 S0 = (.error (.fileNotFound (caCertPath G0)), S0) ∧
    getCAInfo G0 SCA = (.ok (.hash (caGenCert S0), 100, 100 + 3650), SCA) :=
  ⟨(C7_getCAInfo G0 S0).1 rfl,
   (C7_getCAInfo G0 SCA).2 (caGenCert S0) 100 (100 + 3650)
     (caGenState_certFile G0 S0) rfl⟩

/-- C9: `ensureCAExists` decides that no CA exists on any read failure —
including a permission failure on an existing certificate file — and then
regenerates: a fresh passphrase, a fresh encrypted key and a fresh
self-signed certificate are all written at the same three CA paths.  (The
overwrite of the certificate file preserves its unreadable mode, so the
call's final read-back of the certificate it just wrote then surfaces
EACCES — the regeneration itself has already fully happened.)  The
hypotheses on the key and passphrase paths say no unreadable leftovers sit
there. -/
theorem C9_read_failure_regenerates (g : CertificateGenerator) (s : State)
    (c : Content) (h : s.fs (caCertPath g) = some ⟨c, false⟩)
    (hk : entryReadable s (caKeyPath g) = true)
    (hp : entryReadable s (caPasswordPath g) = true) :
    ensureCAExists g s = (.error (.accessDenied (caCertPath g)), caGenState g s) ∧
    (caGenState g s).fs (caCertPath g) = some ⟨caGenCert s, false⟩ ∧
    (caGenState g s).fs (caKeyPath g) =
      some ⟨.caKey (s.ctr + 1) (.pass s.ctr), true⟩ ∧
    (caGenState g s).fs (caPasswordPath g) = some ⟨.pass s.ctr, true⟩ :=
  ⟨ensureCAExists_generate_unreadable g s c h hk,
   by rw [caGenState_certFile g s]; simp [entryReadable, h],
   by rw [caGenState_keyFile g s, hk],
   by rw [caGenState_passFile g s, hp]⟩

/-- Witness for C9: a state with an existing but unreadable CA
certificate. -/
theorem C9_witness :
    ensureCAExists G0 SUnread =
      (.error (.accessDenied (caCertPath G0)), caGenState G0 SUnread) ∧
    (caGenState G0 SUnread).fs (caCertPath G0) =
      some ⟨caGenCert SUnread, false⟩ :=
  ⟨(C9_read_failure_regenerates G0 SUnread (.text "oldca") rfl (by decide) (by decide)).1,
   (C9_read_failure_regenerates G0 SUnread (.text "oldca") rfl (by decide) (by decide)).2.1⟩

theorem getCAInfo_state (g : CertificateGenerator) (s : State) :
    (getCAInfo g s).2 = s := by
  simp only [getCAInfo]
  split
  · rfl
  · rfl
  · split
    · rfl
    · rfl

theorem readCACertificate_state (g : CertificateGenerator) (s : State) :
    (readCACertificate g s).2 = s := by
  simp only [readCACertificate]
  split <;> rfl

/-- C3 counterexample: issuing from the empty state (no CA bootstrapped)
fails, but the device key file for the asset tag exists afterwards — the
partially written files are not cleaned up. -/
theorem C3_counterexample :
    (generateDeviceCertificate G0 O1 "PB-005" "hub-1" 42 S0).1 =
      .error (.fileNotFound (caPasswordPath G0)) ∧
    (generateDeviceCertificate G0 O1 "PB-005" "hub-1" 42 S0).2.fs
      (devKeyPath G0 "PB-005") = some ⟨.devKey 1, true⟩ := by
  decide

/-- C3 amended: a call made while the CA passphrase file is absent (in
particular, before any bootstrap) raises an error and creates no device
certificate file, but the device key file — together with the CSR and the
temporary config — written before the failure is left behind; nothing is
cleaned up on the failure path. -/
theorem C3_failure_behaviour (g : CertificateGenerator) (O : Oracle)
    (tag hub : String) (eqId : Int) (s : State)
    (hpw : s.fs (caPasswordPath g) = none)
    (hcfg : entryReadable s (devConfigPath g tag) = true)
    (hkeyR : entryReadable s (devKeyPath g tag) = true)
    (hcsrR : entryReadable s (devCsrPath g tag) = true) :
    generateDeviceCertificate g O tag hub eqId s =
      (.error (.fileNotFound (caPasswordPath g)), devFailState g O tag hub eqId s) ∧
    (devFailState g O tag hub eqId s).fs (devCertPath g tag) =
      s.fs (devCertPath g tag) ∧
    (devFailState g O tag hub eqId s).fs (devKeyPath g tag) =
      some ⟨.devKey (s.ctr + 1), true⟩ ∧
    (devFailState g O tag hub eqId s).fs (devCsrPath g tag) =
      some ⟨.csr (.devKey (s.ctr + 1)) (devCfgContent O tag hub eqId s), true⟩ ∧
    (devFailState g O tag hub eqId s).fs (devConfigPath g tag) =
      some ⟨devCfgContent O tag hub eqId s, true⟩ := by
  refine ⟨generateDeviceCertificate_noCA g O tag hub eqId s hpw hcfg hkeyR, ?_, ?_, ?_, ?_⟩
  · simp only [devFailState,
      writeFile_fs_ne _ _ (Ne.symm (devCsrPath_ne_devCertPath g tag)),
      writeFile_fs_ne _ _ (Ne.symm (devKeyPath_ne_devCertPath g tag)),
      writeFile_fs_ne _ _ (Ne.symm (devConfigPath_ne_devCertPath g tag))]
  · simp only [devFailState,
      writeFile_fs_ne _ _ (devKeyPath_ne_devCsrPath g tag),
      writeFile_fs_same, entryReadable_writeFile, entryReadable_ctrSet, hkeyR]
  · simp only [devFailState, writeFile_fs_same, entryReadable_writeFile,
      entryReadable_ctrSet, hcsrR]
  · simp only [devFailState,
      writeFile_fs_ne _ _ (devConfigPath_ne_devCsrPath g tag),
      writeFile_fs_ne _ _ (devConfigPath_ne_devKeyPath g tag),
      writeFile_fs_same, entryReadable_writeFile, entryReadable_ctrSet, hcfg]

/-- Witness for C3 amended at the empty state. -/
theorem C3_witness :
    generateDeviceCertificate G0 O1 "PB-007" "hub-1" 7 S0 =
      (.error (.fileNotFound (caPasswordPath G0)),
        devFailState G0 O1 "PB-007" "hub-1" 7 S0) :=
  (C3_failure_behaviour G0 O1 "PB-007" "hub-1" 7 S0 rfl (by decide) (by decide)
    (by decide)).1

/-- C4 counterexample: with the CA bootstrapped, a device issuance call for
the traversal asset tag `../ca/ca` overwrites the CA key with the freshly
generated unencrypted device key — `path.join` normalizes the `..`
segments, so the device key path coincides with the CA key path and
`openssl genrsa -out` truncates the CA key.  The call itself then fails at
the signing step (the clobbered CA key no longer matches the CA
certificate, `X509_check_private_key`), but the CA key is already
destroyed and replaced, violating "no operation of the system ever
regenerates or overwrites it". -/
theorem C4_counterexample :
    devKeyPath G0 "../ca/ca" = caKeyPath G0 ∧
    devCertPath G0 "../ca/ca" = caCertPath G0 ∧
    SCA.fs (caKeyPath G0) = some ⟨.caKey 1 (.pass 0), true⟩ ∧
    (generateDeviceCertificate G0 O1 "../ca/ca" "hub-1" 42 SCA).1 =
      .error .opensslFailed ∧
    (generateDeviceCertificate G0 O1 "../ca/ca" "hub-1" 42 SCA).2.fs (caKeyPath G0) =
      some ⟨.devKey 3, true⟩ := by
  decide

/-- C4 amended: at most one active CA in all system-reachable
configurations: generation happens only when the certificate artifact is
absent — with a readable certificate present `ensureCAExists` performs no
writes at all — and no other operation touches the CA key, certificate or
passphrase, provided device issuance is called with asset tags free of
path separators (a traversal tag such as `../ca/ca` breaks this by
clobbering the CA key before its issuance call fails, see the
counterexample). -/
theorem C4_single_CA (g : CertificateGenerator) (s : State) (c : Content)
    (hc : s.fs (caCertPath g) = some ⟨c, true⟩) :
    ensureCAExists g s = (.ok (c, false), s) ∧
    (validatePrerequisites s).2 = s ∧
    (getCAInfo g s).2 = s ∧
    (readCACertificate g s).2 = s ∧
    (∀ O tag hub eqId, '/' ∉ tag.data →
      ((generateDeviceCertificate g O tag hub eqId s).2).fs (caCertPath g) =
        s.fs (caCertPath g) ∧
      ((generateDeviceCertificate g O tag hub eqId s).2).fs (caKeyPath g) =
        s.fs (caKeyPath g) ∧
      ((generateDeviceCertificate g O tag hub eqId s).2).fs (caPasswordPath g) =
        s.fs (caPasswordPath g)) := by
  refine ⟨ensureCAExists_existing g s c hc, rfl, getCAInfo_state g s,
    readCACertificate_state g s, fun O tag hub eqId ht => ⟨?_, ?_, ?_⟩⟩
  · exact generateDeviceCertificate_frame g O tag hub eqId s _
      (Ne.symm (devConfigPath_ne_caCertPath g tag))
      (Ne.symm (devKeyPath_ne_caCertPath g tag))
      (Ne.symm (devCsrPath_ne_caCertPath g tag))
      (Ne.symm (devCertPath_ne_caCertPath_of_slashFree g tag ht))
      (Ne.symm (caSerialPath_ne_caCertPath g))
  · exact generateDeviceCertificate_frame g O tag hub eqId s _
      (Ne.symm (devConfigPath_ne_caKeyPath g tag))
      (Ne.symm (devKeyPath_ne_caKeyPath_of_slashFree g tag ht))
      (Ne.symm (devCsrPath_ne_caKeyPath g tag))
      (Ne.symm (devCertPath_ne_caKeyPath g tag))
      (Ne.symm (caSerialPath_ne_caKeyPath g))
  · exact generateDeviceCertificate_frame g O tag hub eqId s _
      (Ne.symm (devConfigPath_ne_caPasswordPath g tag))
      (Ne.symm (devKeyPath_ne_caPasswordPath g tag))
      (Ne.symm (devCsrPath_ne_caPasswordPath g tag))
      (Ne.symm (devCertPath_ne_caPasswordPath g tag))
      (Ne.symm (caSerialPath_ne_caPasswordPath g))

/-- Witness for C4 amended: the bootstrapped state, with a slash-free
tag. -/
theorem C4_witness :
    ensureCAExists G0 SCA = (.ok (caGenCert S0, false), SCA) ∧
    (generateDeviceCertificate G0 O1 "PB-005" "hub-1" 42 SCA).2.fs (caKeyPath G0) =
      SCA.fs (caKeyPath G0) :=
  ⟨(C4_single_CA G0 SCA (caGenCert S0) (caGenState_certFile G0 S0)).1,
   ((C4_single_CA G0 SCA (caGenCert S0) (caGenState_certFile G0 S0)).2.2.2.2
      O1 "PB-005" "hub-1" 42 (by decide)).2.1⟩

/-- C2 counterexample: a hub id containing a newline injects an extra
entry into the generated config, so the issued certificate carries five
SAN entries — the claim fails without a restriction on the interpolated
strings.  The hub id is the right injection vector because it only ever
reaches the config file, never an openssl command line, so the real run
completes exactly as the model says (the asset tag here is shell-safe). -/
theorem C2_counterexample :
    safeAssetTag "PB-0X" = true ∧
    (generateDeviceCertificate G0 O1 "PB-0X" "hub-1\nURI.5 = urn:evil" 42 SCA).1.isOk
      = true ∧
    (match (generateDeviceCertificate G0 O1 "PB-0X" "hub-1\nURI.5 = urn:evil" 42 SCA).2.fs
        (devCertPath G0 "PB-0X") with
     | some en => certSAN en.content
     | none => none) =
      some [⟨.uri, "urn:device:uu"⟩, ⟨.uri, "urn:equipment:42"⟩,
            ⟨.uri, "urn:hub:hub-1"⟩, ⟨.uri, "urn:evil"⟩,
            ⟨.dns, "PB-0X.booth.internal"⟩] := by
  decide

/-- C2 amended: for every issued device certificate whose interpolated
values (the generated UUID, the hub id and the rendered equipment id)
contain no newline and whose asset tag is shell-safe — on unsafe tags the
real openssl commands fail before any certificate is issued — the SAN
extension carries exactly four entries, in order: URI
`urn:device:<deviceId>` with the deviceId generated during the call, URI
`urn:equipment:<equipmentId>`, URI `urn:hub:<hubId>`, and DNS
`<assetTag>.booth.internal` with the asset tag used verbatim. -/
theorem C2_san_exact (g : CertificateGenerator) (O : Oracle)
    (tag hub : String) (eqId : Int) (s : State) (pwC caC caK : Content)
    (hpw : s.fs (caPasswordPath g) = some ⟨pwC, true⟩)
    (hcert : s.fs (caCertPath g) = some ⟨caC, true⟩)
    (hkey : s.fs (caKeyPath g) = some ⟨caK, true⟩)
    (hcertOk : isCert caC = true)
    (hpassOk : keyPassOk caK (trimC pwC) = true)
    (hmatch : keyMatchesCert caK caC = true)
    (hsafe : safeAssetTag tag = true)
    (hscratch : scratchReadable g tag s)
    (hd : '\n' ∉ (O.uuid s.ctr).data) (hh : '\n' ∉ hub.data)
    (he : '\n' ∉ (toString eqId).data) :
    generateDeviceCertificate g O tag hub eqId s =
      (.ok ⟨O.uuid s.ctr, eqId, .hash (devLeafCert g O tag hub eqId caC caK s),
          devCertPath g tag, devKeyPath g tag⟩,
        devFinalState g O tag hub eqId caC caK s) ∧
    (devFinalState g O tag hub eqId caC caK s).fs (devCertPath g tag) =
      some ⟨devLeafCert g O tag hub eqId caC caK s, true⟩ ∧
    certSAN (devLeafCert g O tag hub eqId caC caK s) =
      some [⟨.uri, "urn:device:" ++ O.uuid s.ctr⟩,
            ⟨.uri, "urn:equipment:" ++ toString eqId⟩,
            ⟨.uri, "urn:hub:" ++ hub⟩,
            ⟨.dns, tag ++ ".booth.internal"⟩] := by
  have hkk := devKeyPath_ne_caKeyPath_of_slashFree g tag (safeAssetTag_no_slash hsafe)
  refine ⟨generateDeviceCertificate_ok g O tag hub eqId s pwC caC caK hpw hcert hkey
      hcertOk hpassOk hmatch hkk hscratch, ?_, ?_⟩
  · rw [devFinalState_certFile g O tag hub eqId caC caK s, hscratch.2.2.2]
  · have hthis : certSAN (devLeafCert g O tag hub eqId caC caK s) =
        some (sanOfConfig (opensslConfig (O.uuid s.ctr) hub tag eqId)) := rfl
    rw [hthis, sanOfConfig_opensslConfig (O.uuid s.ctr) hub tag eqId hd hh
      (safeAssetTag_no_newline hsafe) he]

/-- Witness for C2 amended at the bootstrapped state. -/
theorem C2_witness :
    generateDeviceCertificate G0 O1 "PB-005" "hub-1" 42 SCA =
      (.ok ⟨O1.uuid SCA.ctr, 42,
          .hash (devLeafCert G0 O1 "PB-005" "hub-1" 42 (caGenCert S0)
            (.caKey 1 (.pass 0)) SCA),
          devCertPath G0 "PB-005", devKeyPath G0 "PB-005"⟩,
        devFinalState G0 O1 "PB-005" "hub-1" 42 (caGenCert S0) (.caKey 1 (.pass 0)) SCA) ∧
    (devFinalState G0 O1 "PB-005" "hub-1" 42 (caGenCert S0) (.caKey 1 (.pass 0)) SCA).fs
        (devCertPath G0 "PB-005") =
      some ⟨devLeafCert G0 O1 "PB-005" "hub-1" 42 (caGenCert S0) (.caKey 1 (.pass 0)) SCA,
        true⟩ ∧
    certSAN (devLeafCert G0 O1 "PB-005" "hub-1" 42 (caGenCert S0) (.caKey 1 (.pass 0)) SCA) =
      some [⟨.uri, "urn:device:" ++ O1.uuid SCA.ctr⟩,
            ⟨.uri, "urn:equipment:" ++ toString (42 : Int)⟩,
            ⟨.uri, "urn:hub:" ++ "hub-1"⟩,
            ⟨.dns, "PB-005" ++ ".booth.internal"⟩] :=
  C2_san_exact G0 O1 "PB-005" "hub-1" 42 SCA (.pass 0) (caGenCert S0) (.caKey 1 (.pass 0))
    (by decide) (by decide) (by decide) (by decide) (by decide) (by decide)
    (by decide) (by decide) (by decide) (by decide) (by decide)

/-- C5: two consecutive completed issuance calls (any shell-safe asset
tags, clean scratch paths) return distinct freshly drawn device ids, write
distinct device keys, and return distinct fingerprints; each deviceId is
drawn inside its call from the UUID stream, never supplied by the
caller. -/
theorem C5_fresh_identity (g : CertificateGenerator) (O : Oracle)
    (tag1 hub1 : String) (eq1 : Int) (tag2 hub2 : String) (eq2 : Int)
    (s : State) (pwC : Content)
    (hinj : Function.Injective O.uuid) (h : CAok g pwC s)
    (hsafe1 : safeAssetTag tag1 = true) (hsafe2 : safeAssetTag tag2 = true)
    (hscr1 : scratchReadable g tag1 s) (hscr2 : scratchReadable g tag2 s) :
    ∃ i1 s1 i2 s2,
      generateDeviceCertificate g O tag1 hub1 eq1 s = (.ok i1, s1) ∧
      generateDeviceCertificate g O tag2 hub2 eq2 s1 = (.ok i2, s2) ∧
      i1.deviceId = O.uuid s.ctr ∧
      i2.deviceId = O.uuid (s.ctr + 2) ∧
      i1.deviceId ≠ i2.deviceId ∧
      s1.fs (devKeyPath g tag1) = some ⟨.devKey (s.ctr + 1), true⟩ ∧
      s2.fs (devKeyPath g tag2) = some ⟨.devKey (s.ctr + 3), true⟩ ∧
      (Content.devKey (s.ctr + 1) : Content) ≠ .devKey (s.ctr + 3) ∧
      i1.fingerprint ≠ i2.fingerprint := by
  obtain ⟨caC1, caK1, hc1, hk1, hrun1, hok1⟩ :=
    generateDeviceCertificate_CAok g O tag1 hub1 eq1 s pwC h
      (safeAssetTag_no_slash hsafe1) hscr1
  obtain ⟨caC2, caK2, hc2, hk2, hrun2, hok2⟩ :=
    generateDeviceCertificate_CAok g O tag2 hub2 eq2
      (devFinalState g O tag1 hub1 eq1 caC1 caK1 s) pwC hok1
      (safeAssetTag_no_slash hsafe2)
      (scratchReadable_devFinalState g O tag1 hub1 eq1 caC1 caK1 s tag2 hscr2)
  refine ⟨_, _, _, _, hrun1, hrun2, rfl, rfl,
    hinj.ne (by rw [devFinalState_ctr]; omega), ?_, ?_, ?_, ?_⟩
  · -- first key file: written by the first call, mode clean by hscr1
    rw [devFinalState_keyFile g O tag1 hub1 eq1 caC1 caK1 s, hscr1.2.1]
  · have hb := devFinalState_keyFile g O tag2 hub2 eq2 caC2 caK2
      (devFinalState g O tag1 hub1 eq1 caC1 caK1 s)
    rw [entryReadable_devFinalState g O tag1 hub1 eq1 caC1 caK1 s _ hscr2.2.1] at hb
    exact hb
  · intro hcontra
    injection hcontra with hn
    omega
  · intro heq
    injection heq with h1
    injection h1 with h2 h3 h4 h5 h6
    injection h2 with h7 h8
    injection h7 with h9
    rw [devFinalState_ctr] at h9
    omega

/-- Witness for C5 at the bootstrapped state with the injective concrete
UUID stream. -/
theorem C5_witness :
    ∃ i1 s1 i2 s2,
      generateDeviceCertificate G0 O1 "PB-001" "hub-1" 1 SCA = (.ok i1, s1) ∧
      generateDeviceCertificate G0 O1 "PB-002" "hub-1" 2 s1 = (.ok i2, s2) ∧
      i1.deviceId = O1.uuid SCA.ctr ∧
      i2.deviceId = O1.uuid (SCA.ctr + 2) ∧
      i1.deviceId ≠ i2.deviceId ∧
      s1.fs (devKeyPath G0 "PB-001") = some ⟨.devKey (SCA.ctr + 1), true⟩ ∧
      s2.fs (devKeyPath G0 "PB-002") = some ⟨.devKey (SCA.ctr + 3), true⟩ ∧
      (Content.devKey (SCA.ctr + 1) : Content) ≠ .devKey (SCA.ctr + 3) ∧
      i1.fingerprint ≠ i2.fingerprint :=
  C5_fresh_identity G0 O1 "PB-001" "hub-1" 1 "PB-002" "hub-1" 2 SCA (.pass 0)
    O1_injective SCA_CAok (by decide) (by decide) (by decide) (by decide)

/-- C10: the device key and certificate paths are a function of the asset
tag (and the storage roots) alone, so a second call with the same
shell-safe tag returns the same two paths, succeeds without error, and
overwrites the previously written device key and certificate with fresh
ones. -/
theorem C10_same_tag_overwrites (g : CertificateGenerator) (O : Oracle)
    (tag hub1 : String) (eq1 : Int) (hub2 : String) (eq2 : Int)
    (s : State) (pwC : Content) (h : CAok g pwC s)
    (hsafe : safeAssetTag tag = true) (hscr : scratchReadable g tag s) :
    ∃ i1 s1 i2 s2 c1 c2,
      generateDeviceCertificate g O tag hub1 eq1 s = (.ok i1, s1) ∧
      generateDeviceCertificate g O tag hub2 eq2 s1 = (.ok i2, s2) ∧
      i1.privateKeyPath = devKeyPath g tag ∧
      i1.certificatePath = devCertPath g tag ∧
      i2.privateKeyPath = i1.privateKeyPath ∧
      i2.certificatePath = i1.certificatePath ∧
      s1.fs (devKeyPath g tag) = some ⟨.devKey (s.ctr + 1), true⟩ ∧
      s2.fs (devKeyPath g tag) = some ⟨.devKey (s.ctr + 3), true⟩ ∧
      (Content.devKey (s.ctr + 1) : Content) ≠ .devKey (s.ctr + 3) ∧
      s1.fs (devCertPath g tag) = some ⟨c1, true⟩ ∧
      s2.fs (devCertPath g tag) = some ⟨c2, true⟩ ∧
      c1 ≠ c2 := by
  obtain ⟨caC1, caK1, hc1, hk1, hrun1, hok1⟩ :=
    generateDeviceCertificate_CAok g O tag hub1 eq1 s pwC h
      (safeAssetTag_no_slash hsafe) hscr
  obtain ⟨caC2, caK2, hc2, hk2, hrun2, hok2⟩ :=
    generateDeviceCertificate_CAok g O tag hub2 eq2
      (devFinalState g O tag hub1 eq1 caC1 caK1 s) pwC hok1
      (safeAssetTag_no_slash hsafe)
      (scratchReadable_devFinalState g O tag hub1 eq1 caC1 caK1 s tag hscr)
  have hkey1 := devFinalState_keyFile g O tag hub1 eq1 caC1 caK1 s
  rw [hscr.2.1] at hkey1
  have hkey2 := devFinalState_keyFile g O tag hub2 eq2 caC2 caK2
    (devFinalState g O tag hub1 eq1 caC1 caK1 s)
  rw [entryReadable_devFinalState g O tag hub1 eq1 caC1 caK1 s _ hscr.2.1] at hkey2
  have hcert1 := devFinalState_certFile g O tag hub1 eq1 caC1 caK1 s
  rw [hscr.2.2.2] at hcert1
  have hcert2 := devFinalState_certFile g O tag hub2 eq2 caC2 caK2
    (devFinalState g O tag hub1 eq1 caC1 caK1 s)
  rw [entryReadable_devFinalState g O tag hub1 eq1 caC1 caK1 s _ hscr.2.2.2] at hcert2
  refine ⟨_, _, _, _, _, _, hrun1, hrun2, rfl, rfl, rfl, rfl,
    hkey1, hkey2, ?_, hcert1, hcert2, ?_⟩
  · intro hcontra
    injection hcontra with hn
    omega
  · intro heq
    injection heq with h1 h2 h3 h4 h5
    injection h1 with h7 h8
    injection h7 with h9
    rw [devFinalState_ctr] at h9
    omega

/-- Witness for C10 at the bootstrapped state. -/
theorem C10_witness :
    ∃ i1 s1 i2 s2 c1 c2,
      generateDeviceCertificate G0 O1 "PB-009" "hub-1" 9 SCA = (.ok i1, s1) ∧
      generateDeviceCertificate G0 O1 "PB-009" "hub-2" 10 s1 = (.ok i2, s2) ∧
      i1.privateKeyPath = devKeyPath G0 "PB-009" ∧
      i1.certificatePath = devCertPath G0 "PB-009" ∧
      i2.privateKeyPath = i1.privateKeyPath ∧
      i2.certificatePath = i1.certificatePath ∧
      s1.fs (devKeyPath G0 "PB-009") = some ⟨.devKey (SCA.ctr + 1), true⟩ ∧
      s2.fs (devKeyPath G0 "PB-009") = some ⟨.devKey (SCA.ctr + 3), true⟩ ∧
      (Content.devKey (SCA.ctr + 1) : Content) ≠ .devKey (SCA.ctr + 3) ∧
      s1.fs (devCertPath G0 "PB-009") = some ⟨c1, true⟩ ∧
      s2.fs (devCertPath G0 "PB-009") = some ⟨c2, true⟩ ∧
      c1 ≠ c2 :=
  C10_same_tag_overwrites G0 O1 "PB-009" "hub-1" 9 "hub-2" 10 SCA (.pass 0) SCA_CAok
    (by decide) (by decide)

/-- C8: after every successful `generateDeviceCertificate` call, the CSR
and the temporary SAN config no longer exist; the cleanup step removes
exactly those two paths — every other file, in particular the device key,
the device certificate and the CA artifacts, is untouched by it — and the
final state holds the freshly written device key and the certificate whose
idealized hash is the returned fingerprint. -/
theorem C8_no_intermediate_material (g : CertificateGenerator) (O : Oracle)
    (tag hub : String) (eqId : Int) (s : State) (info : CertificateInfo) (s2 : State)
    (h : generateDeviceCertificate g O tag hub eqId s = (.ok info, s2)) :
    (∀ sx : State, ∀ q, q ≠ devCsrPath g tag → q ≠ devConfigPath g tag →
      (cleanupTemps g tag sx).fs q = sx.fs q) ∧
    s2.fs (devCsrPath g tag) = none ∧
    s2.fs (devConfigPath g tag) = none ∧
    (∃ k, s2.fs (devKeyPath g tag) = some ⟨.devKey k, true⟩) ∧
    (∃ c, s2.fs (devCertPath g tag) = some ⟨c, true⟩ ∧ info.fingerprint = .hash c) := by
  have hck := devConfigPath_ne_devKeyPath g tag
  have hpwcfg := devConfigPath_ne_caPasswordPath g tag
  have hpwkey := devKeyPath_ne_caPasswordPath g tag
  have hpwcsr := devCsrPath_ne_caPasswordPath g tag
  have hccfg := devConfigPath_ne_caCertPath g tag
  have hckey := devKeyPath_ne_caCertPath g tag
  have hccsr := devCsrPath_ne_caCertPath g tag
  have hkcfg := devConfigPath_ne_caKeyPath g tag
  have hkcsr := devCsrPath_ne_caKeyPath g tag
  refine ⟨fun sx q hq1 hq2 => by
    simp only [cleanupTemps, removeFile_fs_ne _ hq2, removeFile_fs_ne _ hq1], ?_⟩
  rcases hb1 : entryReadable s (devKeyPath g tag) with _ | _
  all_goals rcases hb2 : entryReadable s (devConfigPath g tag) with _ | _
  all_goals simp only [generateDeviceCertificate, writeFile_fs_same, writeFile_ctr,
    writeFile_fs_ne _ _ hck,
    writeFile_fs_ne _ _ (Ne.symm hpwcsr),
    writeFile_fs_ne _ _ (Ne.symm hpwkey),
    writeFile_fs_ne _ _ (Ne.symm hpwcfg),
    writeFile_fs_ne _ _ (Ne.symm hccsr),
    writeFile_fs_ne _ _ (Ne.symm hckey),
    writeFile_fs_ne _ _ (Ne.symm hccfg),
    writeFile_fs_ne _ _ (Ne.symm hkcsr),
    writeFile_fs_ne _ _ (Ne.symm hkcfg),
    entryReadable_writeFile, entryReadable_ctrSet, hb1, hb2] at h
  all_goals try (apply absurd h; simp; done)
  rcases hpw : s.fs (caPasswordPath g) with _ | ⟨pwC, pb⟩
  · simp [hpw] at h
  · rcases pb with _ | _
    · simp [hpw] at h
    · rcases hb3 : entryReadable s (devCsrPath g tag) with _ | _
      · simp [hpw, hb3] at h
      · rcases hcc : s.fs (caCertPath g) with _ | ⟨caC, cb⟩
        · simp [hpw, hb3, hcc] at h
        · rcases cb with _ | _
          · simp [hpw, hb3, hcc] at h
          · by_cases hkk : devKeyPath g tag = caKeyPath g
            · -- the tag makes the device key path collide with the CA key
              -- path: the key written there earlier in the call is read back
              rw [← hkk] at h
              simp only [hpw, hb3, hcc, writeFile_fs_same, writeFile_ctr,
                entryReadable_writeFile, entryReadable_ctrSet, hb1] at h
              rcases hic : isCert caC with _ | _
              · simp [hic] at h
              · rcases hkm : keyMatchesCert (Content.devKey (s.ctr + 1)) caC with _ | _
                · simp [hkm] at h
                · rcases hb4 : entryReadable s (devCertPath g tag) with _ | _
                  · simp [hic, hkm, keyPassOk, writeFile_fs_same, writeFile_ctr,
                      entryReadable_writeFile, entryReadable_ctrSet, hb4] at h
                  · simp [hic, hkm, keyPassOk, writeFile_fs_same, writeFile_ctr,
                      entryReadable_writeFile, entryReadable_ctrSet, hb4] at h
                    obtain ⟨hinfo, hstate⟩ := h
                    subst hinfo
                    subst hstate
                    refine ⟨?_, ?_, ?_, ?_⟩
                    · simp only [cleanupTemps,
                        removeFile_fs_ne _ (Ne.symm (devConfigPath_ne_devCsrPath g tag)),
                        removeFile_fs_same]
                    · simp only [cleanupTemps, removeFile_fs_same]
                    · simp only [cleanupTemps,
                        removeFile_fs_ne _ (Ne.symm (devConfigPath_ne_devKeyPath g tag)),
                        removeFile_fs_ne _ (devKeyPath_ne_devCsrPath g tag),
                        writeFile_fs_ne _ _ (devKeyPath_ne_devCertPath g tag),
                        writeFile_fs_ne _ _ (devKeyPath_ne_caSerialPath g tag),
                        writeFile_fs_ne _ _ (devKeyPath_ne_devCsrPath g tag),
                        writeFile_fs_same, writeFile_ctr, entryReadable_writeFile,
                        entryReadable_ctrSet, hb1]
                      exact ⟨_, rfl⟩
                    · simp only [cleanupTemps,
                        removeFile_fs_ne _ (Ne.symm (devConfigPath_ne_devCertPath g tag)),
                        removeFile_fs_ne _ (Ne.symm (devCsrPath_ne_devCertPath g tag)),
                        writeFile_fs_same, writeFile_ctr, entryReadable_writeFile,
                        entryReadable_ctrSet, hb4]
                      exact ⟨_, rfl, rfl⟩
            · simp only [writeFile_fs_ne _ _ (Ne.symm hkk),
                writeFile_fs_ne _ _ (Ne.symm hkcfg)] at h
              rcases hck2 : s.fs (caKeyPath g) with _ | ⟨caK, kb⟩
              · simp [hpw, hb3, hcc, hck2] at h
              · rcases kb with _ | _
                · simp [hpw, hb3, hcc, hck2] at h
                · simp only [hpw, hb3, hcc, hck2] at h
                  rcases hic : isCert caC with _ | _
                  · simp [hic] at h
                  · rcases hkp : keyPassOk caK (trimC pwC) with _ | _
                    · simp [hkp] at h
                    · rcases hkm : keyMatchesCert caK caC with _ | _
                      · simp [hkm] at h
                      · rcases hb4 : entryReadable s (devCertPath g tag) with _ | _
                        · simp [hic, hkp, hkm, writeFile_fs_same, writeFile_ctr,
                            entryReadable_writeFile, entryReadable_ctrSet, hb4] at h
                        · simp [hic, hkp, hkm, writeFile_fs_same, writeFile_ctr,
                            entryReadable_writeFile, entryReadable_ctrSet, hb4] at h
                          obtain ⟨hinfo, hstate⟩ := h
                          subst hinfo
                          subst hstate
                          refine ⟨?_, ?_, ?_, ?_⟩
                          · simp only [cleanupTemps,
                              removeFile_fs_ne _ (Ne.symm (devConfigPath_ne_devCsrPath g tag)),
                              removeFile_fs_same]
                          · simp only [cleanupTemps, removeFile_fs_same]
                          · simp only [cleanupTemps,
                              removeFile_fs_ne _ (Ne.symm (devConfigPath_ne_devKeyPath g tag)),
                              removeFile_fs_ne _ (devKeyPath_ne_devCsrPath g tag),
                              writeFile_fs_ne _ _ (devKeyPath_ne_devCertPath g tag),
                              writeFile_fs_ne _ _ (devKeyPath_ne_caSerialPath g tag),
                              writeFile_fs_ne _ _ (devKeyPath_ne_devCsrPath g tag),
                              writeFile_fs_same, writeFile_ctr, entryReadable_writeFile,
                              entryReadable_ctrSet, hb1]
                            exact ⟨_, rfl⟩
                          · simp only [cleanupTemps,
                              removeFile_fs_ne _ (Ne.symm (devConfigPath_ne_devCertPath g tag)),
                              removeFile_fs_ne _ (Ne.symm (devCsrPath_ne_devCertPath g tag)),
                              writeFile_fs_same, writeFile_ctr, entryReadable_writeFile,
                              entryReadable_ctrSet, hb4]
                            exact ⟨_, rfl, rfl⟩

/-- Witness for C8 at a concrete successful run. -/
theorem C8_witness :
    (∀ sx : State, ∀ q, q ≠ devCsrPath G0 "PB-011" → q ≠ devConfigPath G0 "PB-011" →
      (cleanupTemps G0 "PB-011" sx).fs q = sx.fs q) ∧
    (devFinalState G0 O1 "PB-011" "hub-1" 11 (caGenCert S0) (.caKey 1 (.pass 0)) SCA).fs
      (devCsrPath G0 "PB-011") = none ∧
    (devFinalState G0 O1 "PB-011" "hub-1" 11 (caGenCert S0) (.caKey 1 (.pass 0)) SCA).fs
      (devConfigPath G0 "PB-011") = none ∧
    (∃ k, (devFinalState G0 O1 "PB-011" "hub-1" 11 (caGenCert S0) (.caKey 1 (.pass 0)) SCA).fs
      (devKeyPath G0 "PB-011") = some ⟨.devKey k, true⟩) ∧
    (∃ c, (devFinalState G0 O1 "PB-011" "hub-1" 11 (caGenCert S0) (.caKey 1 (.pass 0)) SCA).fs
      (devCertPath G0 "PB-011") = some ⟨c, true⟩ ∧
      (CertificateInfo.mk (O1.uuid SCA.ctr) 11
        (.hash (devLeafCert G0 O1 "PB-011" "hub-1" 11 (caGenCert S0) (.caKey 1 (.pass 0)) SCA))
        (devCertPath G0 "PB-011") (devKeyPath G0 "PB-011")).fingerprint = .hash c) :=
  C8_no_intermediate_material G0 O1 "PB-011" "hub-1" 11 SCA _ _
    (generateDeviceCertificate_ok G0 O1 "PB-011" "hub-1" 11 SCA (.pass 0) (caGenCert S0)
      (.caKey 1 (.pass 0)) (by decide) (by decide) (by decide) (by decide) (by decide)
      (by decide) (by decide) (by decide))

end PoemBooth
